import Mathlib

/-! Box2d JSI binding: a shallow embedding.

The binding under `cpp/` projects the rigid-body engine into the scripting runtime.
Every exported host function is embedded as a Lean function taking the receiver's
native state and the argument vector and returning the outcome of the call together
with the receiver's state afterwards.  The state is returned on the error paths as
well, so that "nothing was changed before the throw" is a statement to prove, not a
consequence of the result type.

The engine and the scripting runtime are external.  Of the engine the embedding keeps
its observable footprint: the fields the binding reads back and, per entity, the log
of the calls the binding makes on it.  What a call depends on besides its arguments,
namely whether assertions are compiled in and what a stale read yields, is carried by
the `Runtime` parameter of the host functions that read a boolean or keep a raw pointer
to a vector.
-/

namespace Box2d

/-! ## Script values -/

/-- Script numbers.  The binding does no arithmetic on them; it only forwards them and
casts them.  They are modelled by the rationals (no NaN, no infinities). -/
abbrev Number := Rat

/-- The narrowing `double -> float` done where a script number is handed to the engine.
Rounding is outside the embedding: the conversion is kept as a named function so that
statements say where it happens. -/
def toFloat (x : Number) : Number := x

/-- The widening `(double)` applied to engine scalars handed back to the script. -/
def toDouble (x : Number) : Number := x

/-- Engine struct `b2Vec2`. -/
structure b2Vec2 where
  x : Number
  y : Number
deriving DecidableEq, Repr

/-- Engine enum `b2JointType` (box2d/b2_joint.h). -/
inductive b2JointType where
  | e_unknownJoint
  | e_revoluteJoint
  | e_prismaticJoint
  | e_distanceJoint
  | e_pulleyJoint
  | e_mouseJoint
  | e_gearJoint
  | e_wheelJoint
  | e_weldJoint
  | e_frictionJoint
  | e_ropeJoint
  | e_motorJoint
deriving DecidableEq, Repr

/-- A raw `b2Body*`. -/
abbrev BodyHandle := Nat

/-- A raw `b2Joint*`. -/
abbrev JointHandle := Nat

/-- A raw `b2Shape*`, with the concrete shape class it points to. -/
inductive b2Shape where
  | polygon (id : Nat)
  | circle (id : Nat)
deriving DecidableEq, Repr

/-- The identity of a script function object. -/
abbrev FunctionId := Nat

/-- The address of a native `JSIBox2dContactListener` (the pointee of the shared
pointer held by a `JSIBox2dJSContactListener` and by the world). -/
abbrev ListenerRef := Nat

/-- Engine struct `b2Filter`. `categoryBits` and `maskBits` are `uint16`, `groupIndex`
is `int16`. -/
structure b2Filter where
  categoryBits : Nat
  maskBits : Nat
  groupIndex : Int
deriving DecidableEq, Repr

/-- The value of a default-constructed `b2Filter` (the engine's constructor):
`categoryBits = 0x0001`, `maskBits = 0xFFFF`, `groupIndex = 0`. -/
def b2Filter.ctor : b2Filter :=
  { categoryBits := 0x0001, maskBits := 0xFFFF, groupIndex := 0 }

/-- Engine struct `b2FixtureDef`. -/
structure b2FixtureDef where
  shape : Option b2Shape
  friction : Number
  restitution : Number
  density : Number
  isSensor : Bool
  filter : b2Filter
deriving DecidableEq, Repr

/-- Engine struct `b2RevoluteJointDef`. -/
structure b2RevoluteJointDef where
  bodyA : Option BodyHandle
  bodyB : Option BodyHandle
  localAnchorA : b2Vec2
  localAnchorB : b2Vec2
  referenceAngle : Number
  enableLimit : Bool
  lowerAngle : Number
  upperAngle : Number
  enableMotor : Bool
  motorSpeed : Number
  maxMotorTorque : Number
deriving DecidableEq, Repr

/-- Engine struct `b2DistanceJointDef`. -/
structure b2DistanceJointDef where
  bodyA : Option BodyHandle
  bodyB : Option BodyHandle
  localAnchorA : b2Vec2
  localAnchorB : b2Vec2
  length : Number
  minLength : Number
  maxLength : Number
  stiffness : Number
  damping : Number
deriving DecidableEq, Repr

/-- Engine struct `b2MouseJointDef`. -/
structure b2MouseJointDef where
  bodyA : Option BodyHandle
  bodyB : Option BodyHandle
  target : b2Vec2
  maxForce : Number
  stiffness : Number
  damping : Number
deriving DecidableEq, Repr

/-- What a `const b2JointDef*` handed to the engine points to: the definition struct of
one of the concrete definition classes. -/
inductive b2JointDef where
  | revolute (d : b2RevoluteJointDef)
  | distance (d : b2DistanceJointDef)
  | mouse (d : b2MouseJointDef)
deriving DecidableEq, Repr

/-- The `type` field the engine's constructors give each definition struct. -/
def b2JointDef.type : b2JointDef → b2JointType
  | .revolute _ => .e_revoluteJoint
  | .distance _ => .e_distanceJoint
  | .mouse _ => .e_mouseJoint

/-- Class `JSIBox2dJSContactListener`: its only member is the shared pointer to the
native listener. -/
structure JSIBox2dJSContactListener where
  nativeListener : ListenerRef
deriving DecidableEq, Repr

/-- Method `getNativeListener`. -/
def JSIBox2dJSContactListener.getNativeListener (self : JSIBox2dJSContactListener) :
    ListenerRef :=
  self.nativeListener

/-- Engine struct `b2WorldManifold`: the normal and the two arrays, of capacity
`b2_maxManifoldPoints = 2`, of world points and separations. -/
structure b2WorldManifold where
  normal : b2Vec2
  points : List b2Vec2
  separations : List Number
deriving DecidableEq, Repr

/-- Class `JSIBox2dWorldManifold`: a copy of a world manifold and a point count. -/
structure JSIBox2dWorldManifold where
  manifold : b2WorldManifold
  pointCount : Nat
deriving DecidableEq, Repr

/-- The native object behind a host object, by concrete class.  `isHostObject<T>` is a
test on this tag. -/
inductive HostObject where
  | api
  | vec2 (v : b2Vec2)
  | world (id : Nat)
  | bodyDef (id : Nat)
  | polygonShape (id : Nat)
  | circleShape (id : Nat)
  | fixtureDef (d : b2FixtureDef)
  | revoluteJointDef (d : b2RevoluteJointDef)
  | distanceJointDef (d : b2DistanceJointDef)
  | mouseJointDef (d : b2MouseJointDef)
  | jsContactListener (l : JSIBox2dJSContactListener)
  | body (b : BodyHandle)
  | fixture (f : Nat)
  | joint (j : JointHandle)
  | mouseJoint (j : JointHandle)
  | contact (c : Nat)
  | worldManifold (m : JSIBox2dWorldManifold)
  | foreign (tag : Nat)
deriving DecidableEq, Repr

/-- A `jsi::Value`. The last four constructors are the values for which `isObject()`
holds: plain objects with their properties, arrays, functions and host objects. -/
inductive Value where
  | undefined
  | null
  | bool (b : Bool)
  | number (n : Number)
  | string (s : String)
  | object (props : List (String × Value))
  | array (elems : List Value)
  | function (f : FunctionId)
  | hostObject (h : HostObject)

namespace Value

/-- Method `jsi::Value::isObject`. -/
def isObject : Value → Bool
  | .object _ => true
  | .array _ => true
  | .function _ => true
  | .hostObject _ => true
  | _ => false

/-- Method `jsi::Value::isBool`. -/
def isBool : Value → Bool
  | .bool _ => true
  | _ => false

/-- Method `jsi::Value::isNumber`. -/
def isNumber : Value → Bool
  | .number _ => true
  | _ => false

/-- Method `jsi::Object::isFunction`, on a value that is an object. -/
def isFunction : Value → Bool
  | .function _ => true
  | _ => false

end Value

/-! ## Outcomes of native calls -/

/-- How a host function can fail to return.
* `jsError`: a `jsi::JSError` (or a native exception the runtime turns into one) reaches
  the script as a thrown error; this is the script-visible error of the binding.
* `assertion`: `jsi::Value::getBool` on a value that is not a boolean, in a build with
  assertions: `assert(isBool())` stops the program, nothing is thrown to the script.
* `outOfRange i`: `arguments[i]` was read although `count <= i`. -/
inductive Fault where
  | jsError (message : String)
  | assertion
  | outOfRange (i : Nat)
deriving DecidableEq, Repr

/-- The outcome of a native call. -/
abbrev Result (α : Type) := Except Fault α

/-- The parameter `jsi::Runtime& runtime` of every host function, with what the outcome
of a call depends on besides the arguments:
* `assertions`: whether `assert` is compiled in (no `NDEBUG`);
* `uncheckedBool v`: what the read of the boolean member of a value `v` that is not a
  boolean yields;
* `freedVec2 p`: what a read of a freed `b2Vec2` that held `p` yields. -/
structure Runtime where
  assertions : Bool
  uncheckedBool : Value → Bool
  freedVec2 : b2Vec2 → b2Vec2

/-- The read `arguments[i]` of a host function called with `count = arguments.length`. -/
def arg (arguments : List Value) (i : Nat) : Result Value :=
  match arguments.get? i with
  | some v => .ok v
  | none => .error (.outOfRange i)

/-- Method `jsi::Value::asObject`: throws unless the value is an object. -/
def asObject (v : Value) : Result Value :=
  if v.isObject then .ok v else .error (.jsError "Value is not an Object")

/-- Method `jsi::Value::asNumber`: throws unless the value is a number. -/
def asNumber : Value → Result Number
  | .number n => .ok n
  | _ => .error (.jsError "Value is not a number")

/-- A build with assertions compiled in, on which freed memory still holds what it held. -/
def Runtime.checked : Runtime :=
  { assertions := true, uncheckedBool := fun _ => false, freedVec2 := fun p => p }

/-- A build with `NDEBUG`, on which the stale reads yield zero bytes: `false` for the
boolean member of a value that is not a boolean, the zero vector for a freed `b2Vec2`. -/
def Runtime.unchecked : Runtime :=
  { assertions := false, uncheckedBool := fun _ => false, freedVec2 := fun _ => ⟨0, 0⟩ }

/-- Method `jsi::Value::getBool`: `assert(isBool())` followed by the unchecked read of the
boolean member. -/
def getBool (runtime : Runtime) : Value → Result Bool
  | .bool b => .ok b
  | v => if runtime.assertions then .error .assertion else .ok (runtime.uncheckedBool v)

/-! ## The engine's observable footprint -/

/-- The calls the binding makes on an engine world. -/
inductive WorldCall where
  | CreateJoint (jointDef : b2JointDef)
  | DestroyJoint (joint : JointHandle)
  | SetContactListener (listener : ListenerRef)
  | RayCast (point1 : b2Vec2) (point2 : b2Vec2)
  | QueryAABB (lowerBound : b2Vec2) (upperBound : b2Vec2)
deriving DecidableEq, Repr

/-- Engine class `b2World`, as far as the binding observes it: the log of the calls made
on it and the contact listener registered with it (`none` is the engine's built-in
default listener, which ignores every event). -/
structure b2World where
  gravity : b2Vec2
  calls : List WorldCall
  m_contactListener : Option ListenerRef
deriving DecidableEq, Repr

/-- Engine constructor `b2World(gravity)`. -/
def b2World.ctor (gravity : b2Vec2) : b2World :=
  { gravity := gravity, calls := [], m_contactListener := none }

/-- Engine method `b2World::CreateJoint`: the engine copies the definition and returns a
pointer to a fresh joint. -/
def b2World.CreateJoint (w : b2World) (jointDef : b2JointDef) : JointHandle × b2World :=
  (w.calls.length, { w with calls := w.calls ++ [.CreateJoint jointDef] })

/-- Engine method `b2World::SetContactListener`. -/
def b2World.SetContactListener (w : b2World) (listener : ListenerRef) : b2World :=
  { w with calls := w.calls ++ [.SetContactListener listener],
           m_contactListener := some listener }

/-- The number of `CreateJoint` calls recorded in a call log. -/
def createJointCount (calls : List WorldCall) : Nat :=
  calls.countP fun c => match c with
    | .CreateJoint _ => true
    | _ => false

/-- The calls made on an engine joint by the motor operations. -/
inductive JointCall where
  | SetMotorSpeed (speed : Number)
  | EnableMotor (flag : Bool)
  | SetMaxMotorTorque (torque : Number)
deriving DecidableEq, Repr

/-- Engine class `b2Joint` with the motor state of its revolute, prismatic and wheel
subclasses, and the log of the motor calls made on it. -/
structure b2Joint where
  m_type : b2JointType
  m_enableMotor : Bool
  m_motorSpeed : Number
  m_maxMotorTorque : Number
  calls : List JointCall
deriving DecidableEq, Repr

/-- Engine method `GetType`. -/
def b2Joint.GetType (j : b2Joint) : b2JointType := j.m_type

/-- Engine method `SetMotorSpeed` of the revolute, prismatic and wheel joints. -/
def b2Joint.SetMotorSpeed (j : b2Joint) (speed : Number) : b2Joint :=
  { j with m_motorSpeed := speed, calls := j.calls ++ [.SetMotorSpeed speed] }

/-- Engine method `GetMotorSpeed` of the revolute, prismatic and wheel joints. -/
def b2Joint.GetMotorSpeed (j : b2Joint) : Number := j.m_motorSpeed

/-- Engine method `EnableMotor` of the revolute, prismatic and wheel joints. -/
def b2Joint.EnableMotor (j : b2Joint) (flag : Bool) : b2Joint :=
  { j with m_enableMotor := flag, calls := j.calls ++ [.EnableMotor flag] }

/-- Engine method `SetMaxMotorTorque` of the revolute and wheel joints. -/
def b2Joint.SetMaxMotorTorque (j : b2Joint) (torque : Number) : b2Joint :=
  { j with m_maxMotorTorque := torque, calls := j.calls ++ [.SetMaxMotorTorque torque] }

/-- Engine class `b2Fixture`, as far as the binding observes it. -/
structure b2Fixture where
  m_filter : b2Filter
  m_isSensor : Bool
deriving DecidableEq, Repr

/-- Engine method `b2Fixture::SetFilterData`: the whole filter is replaced. -/
def b2Fixture.SetFilterData (f : b2Fixture) (filter : b2Filter) : b2Fixture :=
  { f with m_filter := filter }

/-- The calls the binding makes on an engine body. -/
inductive BodyCall where
  | CreateFixture (fixtureDef : b2FixtureDef)
  | CreateFixtureFromShape (shape : b2Shape) (density : Number)
  | ApplyForceToCenter (force : b2Vec2) (wake : Bool)
  | ApplyLinearImpulseToCenter (impulse : b2Vec2) (wake : Bool)
  | ApplyForce (force : b2Vec2) (point : b2Vec2) (wake : Bool)
  | ApplyLinearImpulse (impulse : b2Vec2) (point : b2Vec2) (wake : Bool)
  | ApplyTorque (torque : Number) (wake : Bool)
  | ApplyAngularImpulse (impulse : Number) (wake : Bool)
  | SetAwake (flag : Bool)
  | SetEnabled (flag : Bool)
  | SetBullet (flag : Bool)
  | SetFixedRotation (flag : Bool)
  | SetTransform (position : b2Vec2) (angle : Number)
deriving DecidableEq, Repr

/-- Engine class `b2Body`, as far as the binding observes it: the log of the calls made
on it. -/
structure b2Body where
  calls : List BodyCall
deriving DecidableEq, Repr

/-- An engine call on a body: it is appended to the body's log. -/
def b2Body.call (b : b2Body) (c : BodyCall) : b2Body :=
  { b with calls := b.calls ++ [c] }

/-! ## Helpers of the binding that are not part of the sources at hand -/

/-- Modelled from the spec: `JSIBox2dVec2::fromValue` (JSIBox2dVec2.h is missing).  It
reads a Vec2 host object, or a script object exposing numeric `x` and `y`, and yields an
engine struct; any other argument fails with a script-visible error. -/
def JSIBox2dVec2.fromValue (v : Value) : Result b2Vec2 :=
  match v with
  | .hostObject (.vec2 p) => .ok p
  | .object props =>
    match props.lookup "x", props.lookup "y" with
    | some (.number x), some (.number y) => .ok { x := toFloat x, y := toFloat y }
    | _, _ => .error (.jsError "Value is not a Vec2")
  | _ => .error (.jsError "Value is not a Vec2")

/-- A raw `b2Vec2*` taken with `.get()` from the owning pointer that
`JSIBox2dVec2::fromValue` returns: the struct it pointed to when taken, and whether that
struct is still alive after the statement, when the temporary owning pointer is gone. -/
structure b2Vec2Ptr where
  pointee : b2Vec2
  alive : Bool
deriving DecidableEq, Repr

/-- Modelled from the spec: the statement
`auto p = JSIBox2dVec2::fromValue(runtime, v).get();` (JSIBox2dVec2.h is missing).  The
struct behind an existing Vec2 host object is shared with that host object and outlives
the temporary; the struct read from a script object with `x` and `y` is fresh, owned by
the temporary alone, and freed at the end of the statement. -/
def JSIBox2dVec2.fromValueGet (v : Value) : Result b2Vec2Ptr :=
  match JSIBox2dVec2.fromValue v with
  | .error e => .error e
  | .ok p =>
    match v with
    | .hostObject (.vec2 _) => .ok { pointee := p, alive := true }
    | _ => .ok { pointee := p, alive := false }

/-- The read `*p` of a raw `b2Vec2*` at the engine call. -/
def b2Vec2Ptr.deref (p : b2Vec2Ptr) (runtime : Runtime) : b2Vec2 :=
  if p.alive then p.pointee else runtime.freedVec2 p.pointee

/-- Modelled from the spec: `JSIBox2dFixtureDef::fromValue` (JSIBox2dFixtureDef.h is
missing), the definition struct behind a FixtureDef host object; any other argument
fails with a script-visible error. -/
def JSIBox2dFixtureDef.fromValue (v : Value) : Result b2FixtureDef :=
  match v with
  | .hostObject (.fixtureDef d) => .ok d
  | _ => .error (.jsError "Object is not a HostObject of desired type")

/-- Modelled from the spec: `Utils::getShape` (utils.h is missing), the engine shape
behind any shape host object; any other argument fails with a script-visible error. -/
def Utils.getShape (v : Value) : Result b2Shape :=
  match v with
  | .hostObject (.polygonShape id) => .ok (.polygon id)
  | .hostObject (.circleShape id) => .ok (.circle id)
  | _ => .error (.jsError "Unsupported shape type")

/-! ## JSIBox2dWorld -/

/-- Class `JSIBox2dWorld`: the engine world and the shared pointer to the installed
contact listener (`none` is the empty shared pointer). -/
structure JSIBox2dWorld where
  world : b2World
  contactListener : Option ListenerRef
deriving DecidableEq, Repr

namespace JSIBox2dWorld

/-- Constructor `JSIBox2dWorld(gravity)`. -/
def ctor (gravity : b2Vec2) : JSIBox2dWorld :=
  { world := b2World.ctor gravity, contactListener := none }

/-- Host function `CreateJoint`. -/
def CreateJoint (self : JSIBox2dWorld) (arguments : List Value) :
    Result Value × JSIBox2dWorld :=
  match arg arguments 0 >>= asObject with
  | .error e => (.error e, self)
  | .ok jointDefObj =>
    match jointDefObj with
    | .hostObject (.revoluteJointDef d) =>
      let r := self.world.CreateJoint (.revolute d)
      (.ok (.hostObject (.joint r.1)), { self with world := r.2 })
    | .hostObject (.distanceJointDef d) =>
      let r := self.world.CreateJoint (.distance d)
      (.ok (.hostObject (.joint r.1)), { self with world := r.2 })
    | .hostObject (.mouseJointDef d) =>
      let r := self.world.CreateJoint (.mouse d)
      (.ok (.hostObject (.mouseJoint r.1)), { self with world := r.2 })
    | _ => (.error (.jsError "Unknown joint definition type"), self)

/-- Host function `SetContactListener`. -/
def SetContactListener (self : JSIBox2dWorld) (arguments : List Value) :
    Result Value × JSIBox2dWorld :=
  match arg arguments 0 with
  | .error e => (.error e, self)
  | .ok a0 =>
    if a0.isObject then
      match a0 with
      | .hostObject (.jsContactListener l) =>
        let contactListener := l.getNativeListener
        (.ok .undefined,
          { contactListener := some contactListener,
            world := self.world.SetContactListener contactListener })
      | _ => (.ok .undefined, self)
    else (.ok .undefined, self)

end JSIBox2dWorld

/-! ## JSIBox2dJoint -/

namespace JSIBox2dJoint

/-- Host function `SetMotorSpeed`; `self` is the engine joint the wrapper points to. -/
def SetMotorSpeed (self : b2Joint) (arguments : List Value) : Result Value × b2Joint :=
  match arg arguments 0 >>= asNumber with
  | .error e => (.error e, self)
  | .ok n =>
    let speed := toFloat n
    match self.GetType with
    | .e_revoluteJoint => (.ok .undefined, self.SetMotorSpeed speed)
    | .e_prismaticJoint => (.ok .undefined, self.SetMotorSpeed speed)
    | .e_wheelJoint => (.ok .undefined, self.SetMotorSpeed speed)
    | _ => (.ok .undefined, self)

/-- Host function `GetMotorSpeed`. -/
def GetMotorSpeed (self : b2Joint) (_arguments : List Value) : Result Value :=
  match self.GetType with
  | .e_revoluteJoint => .ok (.number (toDouble self.GetMotorSpeed))
  | .e_prismaticJoint => .ok (.number (toDouble self.GetMotorSpeed))
  | .e_wheelJoint => .ok (.number (toDouble self.GetMotorSpeed))
  | _ => .ok (.number 0)

/-- Host function `EnableMotor`. -/
def EnableMotor (runtime : Runtime) (self : b2Joint) (arguments : List Value) :
    Result Value × b2Joint :=
  match arg arguments 0 >>= getBool runtime with
  | .error e => (.error e, self)
  | .ok enable =>
    match self.GetType with
    | .e_revoluteJoint => (.ok .undefined, self.EnableMotor enable)
    | .e_prismaticJoint => (.ok .undefined, self.EnableMotor enable)
    | .e_wheelJoint => (.ok .undefined, self.EnableMotor enable)
    | _ => (.ok .undefined, self)

/-- Host function `SetMaxMotorTorque`. -/
def SetMaxMotorTorque (self : b2Joint) (arguments : List Value) : Result Value × b2Joint :=
  match arg arguments 0 >>= asNumber with
  | .error e => (.error e, self)
  | .ok n =>
    let torque := toFloat n
    match self.GetType with
    | .e_revoluteJoint => (.ok .undefined, self.SetMaxMotorTorque torque)
    | .e_wheelJoint => (.ok .undefined, self.SetMaxMotorTorque torque)
    | _ => (.ok .undefined, self)

end JSIBox2dJoint

/-! ## JSIBox2dFixture -/

/-- The cast `(uint16)` of a script number: truncation toward zero, reduced modulo
`2^16`. -/
def toUint16 (n : Number) : Nat := (Int.tdiv n.num n.den % 65536).toNat

/-- The cast `(int16)` of a script number: truncation toward zero, reduced modulo `2^16`
into the signed range. -/
def toInt16 (n : Number) : Int :=
  let m := Int.tdiv n.num n.den % 65536
  if m < 32768 then m else m - 65536

/-- Method `jsi::Object::hasProperty`, for the properties of a plain object (those of
arrays, functions and host objects are not modelled). -/
def Value.hasProperty (o : Value) (name : String) : Bool :=
  match o with
  | .object props => (props.lookup name).isSome
  | _ => false

/-- Method `jsi::Object::getProperty`: a missing property reads as `undefined`. -/
def Value.getProperty (o : Value) (name : String) : Value :=
  match o with
  | .object props => (props.lookup name).getD .undefined
  | _ => .undefined

namespace JSIBox2dFixture

/-- The filter that `SetFilterData` builds from its argument before the engine call: a
default-constructed `b2Filter` in which the fields present in the argument object are
overwritten. -/
def filterOfArguments (arguments : List Value) : Result b2Filter := do
  let filterObj ← arg arguments 0 >>= asObject
  let filter := b2Filter.ctor
  let filter ←
    if filterObj.hasProperty "categoryBits" then do
      let n ← asNumber (filterObj.getProperty "categoryBits")
      pure { filter with categoryBits := toUint16 n }
    else pure filter
  let filter ←
    if filterObj.hasProperty "maskBits" then do
      let n ← asNumber (filterObj.getProperty "maskBits")
      pure { filter with maskBits := toUint16 n }
    else pure filter
  let filter ←
    if filterObj.hasProperty "groupIndex" then do
      let n ← asNumber (filterObj.getProperty "groupIndex")
      pure { filter with groupIndex := toInt16 n }
    else pure filter
  pure filter

/-- Host function `SetFilterData`; `self` is the engine fixture the wrapper points to. -/
def SetFilterData (self : b2Fixture) (arguments : List Value) : Result Value × b2Fixture :=
  match filterOfArguments arguments with
  | .error e => (.error e, self)
  | .ok filter => (.ok .undefined, self.SetFilterData filter)

end JSIBox2dFixture

/-! ## JSIBox2dBody -/

namespace JSIBox2dBody

/-- Host function `CreateFixture`; `self` is the engine body the wrapper points to. -/
def CreateFixture (self : b2Body) (arguments : List Value) : Result Value × b2Body :=
  match arg arguments 0 with
  | .error e => (.error e, self)
  | .ok a0 =>
    if a0.isObject then
      match a0 with
      | .hostObject (.fixtureDef _) =>
        match JSIBox2dFixtureDef.fromValue a0 with
        | .error e => (.error e, self)
        | .ok fixtureDef => (.ok .undefined, self.call (.CreateFixture fixtureDef))
      | _ => (.error (.jsError "Unsupported shape type"), self)
    else (.error (.jsError "Unsupported shape type"), self)

/-- The arguments `CreateFixture2` converts before its engine call. -/
def createFixture2Arguments (arguments : List Value) : Result (b2Shape × Number) := do
  let shape ← arg arguments 0 >>= Utils.getShape
  let density ← arg arguments 1 >>= asNumber
  pure (shape, toFloat density)

/-- Host function `CreateFixture2`. -/
def CreateFixture2 (self : b2Body) (arguments : List Value) : Result Value × b2Body :=
  match createFixture2Arguments arguments with
  | .error e => (.error e, self)
  | .ok (shape, density) => (.ok .undefined, self.call (.CreateFixtureFromShape shape density))

/-- The arguments `ApplyForceToCenter` and `ApplyLinearImpulseToCenter` pass to their
engine call: `*vector`, with `vector` the raw pointer kept from `arguments[0]`, and
`arguments[1].getBool()`. -/
def toCenterArguments (runtime : Runtime) (arguments : List Value) :
    Result (b2Vec2 × Bool) := do
  let vector ← arg arguments 0 >>= JSIBox2dVec2.fromValueGet
  let wake ← arg arguments 1 >>= getBool runtime
  pure (vector.deref runtime, wake)

/-- Host function `ApplyForceToCenter`. -/
def ApplyForceToCenter (runtime : Runtime) (self : b2Body) (arguments : List Value) :
    Result Value × b2Body :=
  match toCenterArguments runtime arguments with
  | .error e => (.error e, self)
  | .ok (vector, wake) => (.ok .undefined, self.call (.ApplyForceToCenter vector wake))

/-- Host function `ApplyLinearImpulseToCenter`. -/
def ApplyLinearImpulseToCenter (runtime : Runtime) (self : b2Body)
    (arguments : List Value) : Result Value × b2Body :=
  match toCenterArguments runtime arguments with
  | .error e => (.error e, self)
  | .ok (vector, wake) => (.ok .undefined, self.call (.ApplyLinearImpulseToCenter vector wake))

/-- The arguments `ApplyForce` and `ApplyLinearImpulse` pass to their engine call:
`*force` and `*point`, with the raw pointers kept from `arguments[0]` and
`arguments[1]`, and `wake`, which is `count > 2 ? arguments[2].getBool() : true`. -/
def atPointArguments (runtime : Runtime) (arguments : List Value) :
    Result (b2Vec2 × b2Vec2 × Bool) := do
  let force ← arg arguments 0 >>= JSIBox2dVec2.fromValueGet
  let point ← arg arguments 1 >>= JSIBox2dVec2.fromValueGet
  let wake ← if arguments.length > 2 then arg arguments 2 >>= getBool runtime else pure true
  pure (force.deref runtime, point.deref runtime, wake)

/-- Host function `ApplyForce`. -/
def ApplyForce (runtime : Runtime) (self : b2Body) (arguments : List Value) :
    Result Value × b2Body :=
  match atPointArguments runtime arguments with
  | .error e => (.error e, self)
  | .ok (force, point, wake) => (.ok .undefined, self.call (.ApplyForce force point wake))

/-- Host function `ApplyLinearImpulse`. -/
def ApplyLinearImpulse (runtime : Runtime) (self : b2Body) (arguments : List Value) :
    Result Value × b2Body :=
  match atPointArguments runtime arguments with
  | .error e => (.error e, self)
  | .ok (impulse, point, wake) =>
    (.ok .undefined, self.call (.ApplyLinearImpulse impulse point wake))

/-- The arguments `ApplyTorque` and `ApplyAngularImpulse` convert before their engine
call; `wake` is `count > 1 ? arguments[1].getBool() : true`. -/
def angularArguments (runtime : Runtime) (arguments : List Value) :
    Result (Number × Bool) := do
  let torque ← arg arguments 0 >>= asNumber
  let wake ← if arguments.length > 1 then arg arguments 1 >>= getBool runtime else pure true
  pure (toFloat torque, wake)

/-- Host function `ApplyTorque`. -/
def ApplyTorque (runtime : Runtime) (self : b2Body) (arguments : List Value) :
    Result Value × b2Body :=
  match angularArguments runtime arguments with
  | .error e => (.error e, self)
  | .ok (torque, wake) => (.ok .undefined, self.call (.ApplyTorque torque wake))

/-- Host function `ApplyAngularImpulse`. -/
def ApplyAngularImpulse (runtime : Runtime) (self : b2Body) (arguments : List Value) :
    Result Value × b2Body :=
  match angularArguments runtime arguments with
  | .error e => (.error e, self)
  | .ok (impulse, wake) => (.ok .undefined, self.call (.ApplyAngularImpulse impulse wake))

end JSIBox2dBody

/-! ## JSIBox2dContactListener and JSIBox2dJSContactListener -/

/-- Class `JSIBox2dContactListener`: the four optional script callables (`none` is the
empty shared pointer). -/
structure JSIBox2dContactListener where
  beginContactCb : Option FunctionId
  endContactCb : Option FunctionId
  preSolveCb : Option FunctionId
  postSolveCb : Option FunctionId
deriving DecidableEq, Repr

/-- Engine struct `b2ContactImpulse`: the two impulse arrays and the number of entries in
use. -/
structure b2ContactImpulse where
  normalImpulses : List Number
  tangentImpulses : List Number
  count : Nat
deriving DecidableEq, Repr

/-- A contact event as the engine delivers it to the registered `b2ContactListener`. -/
inductive ContactEvent where
  | BeginContact (contact : Nat)
  | EndContact (contact : Nat)
  | PreSolve (contact : Nat) (oldManifold : Nat)
  | PostSolve (contact : Nat) (impulse : b2ContactImpulse)
deriving DecidableEq, Repr

/-- A call made into the script: the function called and its arguments. -/
structure ScriptCall where
  callee : FunctionId
  arguments : List Value

namespace JSIBox2dContactListener

/-- Constructor `JSIBox2dContactListener(rt)`: no callable is set. -/
def ctor : JSIBox2dContactListener :=
  { beginContactCb := none, endContactCb := none, preSolveCb := none, postSolveCb := none }

/-- Method `setBeginContact`. -/
def setBeginContact (self : JSIBox2dContactListener) (cb : Option FunctionId) :
    JSIBox2dContactListener :=
  { self with beginContactCb := cb }

/-- Method `setEndContact`. -/
def setEndContact (self : JSIBox2dContactListener) (cb : Option FunctionId) :
    JSIBox2dContactListener :=
  { self with endContactCb := cb }

/-- Method `setPreSolve`. -/
def setPreSolve (self : JSIBox2dContactListener) (cb : Option FunctionId) :
    JSIBox2dContactListener :=
  { self with preSolveCb := cb }

/-- Method `setPostSolve`. -/
def setPostSolve (self : JSIBox2dContactListener) (cb : Option FunctionId) :
    JSIBox2dContactListener :=
  { self with postSolveCb := cb }

/-- Override `BeginContact`: the script calls it makes. -/
def BeginContact (self : JSIBox2dContactListener) (contact : Nat) : Result (List ScriptCall) :=
  match self.beginContactCb with
  | some cb => .ok [⟨cb, [.hostObject (.contact contact)]⟩]
  | none => .ok []

/-- Override `EndContact`. -/
def EndContact (self : JSIBox2dContactListener) (contact : Nat) : Result (List ScriptCall) :=
  match self.endContactCb with
  | some cb => .ok [⟨cb, [.hostObject (.contact contact)]⟩]
  | none => .ok []

/-- Override `PreSolve`; the old manifold is not handed to the script. -/
def PreSolve (self : JSIBox2dContactListener) (contact : Nat) (_oldManifold : Nat) :
    Result (List ScriptCall) :=
  match self.preSolveCb with
  | some cb => .ok [⟨cb, [.hostObject (.contact contact)]⟩]
  | none => .ok []

/-- The loop of `PostSolve`: for `i` from 0 below `count`, entry `i` of both impulse
arrays is read and stored at index `i` of the two script arrays. -/
def impulseEntries (impulse : b2ContactImpulse) : Result (List (Value × Value)) :=
  (List.range impulse.count).mapM fun i =>
    match impulse.normalImpulses.get? i, impulse.tangentImpulses.get? i with
    | some n, some t => .ok (.number (toDouble n), .number (toDouble t))
    | _, _ => .error (.outOfRange i)

/-- Override `PostSolve`: the impulse is marshalled as a plain object. -/
def PostSolve (self : JSIBox2dContactListener) (contact : Nat) (impulse : b2ContactImpulse) :
    Result (List ScriptCall) :=
  match self.postSolveCb with
  | some cb => do
    let entries ← impulseEntries impulse
    let impulseObj := Value.object
      [("normalImpulses", .array (entries.map Prod.fst)),
       ("tangentImpulses", .array (entries.map Prod.snd)),
       ("count", .number impulse.count)]
    pure [⟨cb, [.hostObject (.contact contact), impulseObj]⟩]
  | none => .ok []

/-- The virtual call the engine makes on a registered listener for an event. -/
def deliver (self : JSIBox2dContactListener) : ContactEvent → Result (List ScriptCall)
  | .BeginContact contact => self.BeginContact contact
  | .EndContact contact => self.EndContact contact
  | .PreSolve contact oldManifold => self.PreSolve contact oldManifold
  | .PostSolve contact impulse => self.PostSolve contact impulse

end JSIBox2dContactListener

/-- The native listeners alive, by address. -/
abbrev ListenerHeap := ListenerRef → JSIBox2dContactListener

/-- An event raised by the engine world during a step: it goes to the registered
listener; the engine's default listener ignores it. -/
def b2World.raise (w : b2World) (heap : ListenerHeap) (event : ContactEvent) :
    Result (List ScriptCall) :=
  match w.m_contactListener with
  | some listener => (heap listener).deliver event
  | none => .ok []

/-- Method `jsi::Object::asFunction`: throws unless the object is a function. -/
def asFunction : Value → Result FunctionId
  | .function f => .ok f
  | _ => .error (.jsError "Object is not a function")

namespace JSIBox2dJSContactListener

/-- Property setter `BeginContact`; `nativeListener` is the native listener the host
object points to. -/
def set_BeginContact (nativeListener : JSIBox2dContactListener) (value : Value) :
    Result Unit × JSIBox2dContactListener :=
  if value.isObject && value.isFunction then
    match asObject value >>= asFunction with
    | .error e => (.error e, nativeListener)
    | .ok func => (.ok (), nativeListener.setBeginContact (some func))
  else (.ok (), nativeListener)

/-- Property setter `EndContact`. -/
def set_EndContact (nativeListener : JSIBox2dContactListener) (value : Value) :
    Result Unit × JSIBox2dContactListener :=
  if value.isObject && value.isFunction then
    match asObject value >>= asFunction with
    | .error e => (.error e, nativeListener)
    | .ok func => (.ok (), nativeListener.setEndContact (some func))
  else (.ok (), nativeListener)

/-- Property setter `PreSolve`. -/
def set_PreSolve (nativeListener : JSIBox2dContactListener) (value : Value) :
    Result Unit × JSIBox2dContactListener :=
  if value.isObject && value.isFunction then
    match asObject value >>= asFunction with
    | .error e => (.error e, nativeListener)
    | .ok func => (.ok (), nativeListener.setPreSolve (some func))
  else (.ok (), nativeListener)

/-- Property setter `PostSolve`. -/
def set_PostSolve (nativeListener : JSIBox2dContactListener) (value : Value) :
    Result Unit × JSIBox2dContactListener :=
  if value.isObject && value.isFunction then
    match asObject value >>= asFunction with
    | .error e => (.error e, nativeListener)
    | .ok func => (.ok (), nativeListener.setPostSolve (some func))
  else (.ok (), nativeListener)

end JSIBox2dJSContactListener

/-- The worlds reachable from a freshly constructed one by `SetContactListener` calls,
one argument vector per call. -/
def JSIBox2dWorld.afterSetContactListenerCalls (self : JSIBox2dWorld) :
    List (List Value) → JSIBox2dWorld
  | [] => self
  | arguments :: more =>
    afterSetContactListenerCalls (SetContactListener self arguments).2 more

/-! ## Sequences of contact events -/

/-- The contact an event is about. -/
def ContactEvent.contact : ContactEvent → Nat
  | .BeginContact contact => contact
  | .EndContact contact => contact
  | .PreSolve contact _ => contact
  | .PostSolve contact _ => contact

/-- The stored callable matching the kind of an event. -/
def JSIBox2dContactListener.callableFor (self : JSIBox2dContactListener) :
    ContactEvent → Option FunctionId
  | .BeginContact _ => self.beginContactCb
  | .EndContact _ => self.endContactCb
  | .PreSolve _ _ => self.preSolveCb
  | .PostSolve _ _ => self.postSolveCb

/-- The engine delivering a sequence of events to a listener, one virtual call after the
other: the script calls made, in the order they are made. -/
def JSIBox2dContactListener.deliverAll (self : JSIBox2dContactListener) :
    List ContactEvent → Result (List ScriptCall)
  | [] => .ok []
  | event :: more => do
    let first ← self.deliver event
    let later ← deliverAll self more
    pure (first ++ later)

/-- An impulse as the engine hands it out: `count` does not exceed the capacity of the two
arrays. -/
def b2ContactImpulse.inCapacity (impulse : b2ContactImpulse) : Prop :=
  impulse.count ≤ impulse.normalImpulses.length ∧
  impulse.count ≤ impulse.tangentImpulses.length

instance (impulse : b2ContactImpulse) : Decidable impulse.inCapacity := by
  unfold b2ContactImpulse.inCapacity
  exact inferInstance

/-! ## Ray casts and region queries -/

/-- The script's functions: the value a call of function `f` on given arguments
returns. -/
abbrev Script := FunctionId → List Value → Value

/-- Modelled from the spec: `JSIBox2dVec2::toValue` (JSIBox2dVec2.h is missing).  It
creates a fresh script object with the same fields as the engine struct. -/
def JSIBox2dVec2.toValue (v : b2Vec2) : Value :=
  .object [("x", .number (toDouble v.x)), ("y", .number (toDouble v.y))]

/-- Method `jsi::Object::getPropertyAsFunction`: throws unless the property is a
function. -/
def Value.getPropertyAsFunction (o : Value) (name : String) : Result FunctionId :=
  match o.getProperty name with
  | .function f => .ok f
  | _ => .error (.jsError "Property is not a function")

/-- Engine method `b2World::RayCast`, as a call on the world. -/
def b2World.RayCast (w : b2World) (point1 point2 : b2Vec2) : b2World :=
  { w with calls := w.calls ++ [.RayCast point1 point2] }

/-- Engine method `b2World::QueryAABB`, as a call on the world. -/
def b2World.QueryAABB (w : b2World) (lowerBound upperBound : b2Vec2) : b2World :=
  { w with calls := w.calls ++ [.QueryAABB lowerBound upperBound] }

/-- What the engine passes to `b2RayCastCallback::ReportFixture`. -/
structure RayCastReport where
  fixture : Nat
  point : b2Vec2
  normal : b2Vec2
  fraction : Number
deriving DecidableEq, Repr

namespace JSRayCastCallback

/-- The arguments the adapter calls the script function with. -/
def callArguments (report : RayCastReport) : List Value :=
  [.hostObject (.fixture report.fixture), JSIBox2dVec2.toValue report.point,
    JSIBox2dVec2.toValue report.normal, .number (toDouble report.fraction)]

/-- Override `ReportFixture` of the local class `JSRayCastCallback` in `RayCast`: the
control value returned to the engine. -/
def ReportFixture (script : Script) (callback : FunctionId) (report : RayCastReport) :
    Result Number :=
  let result := script callback (callArguments report)
  if result.isNumber then do
    let n ← asNumber result
    pure (toFloat n)
  else pure 1

end JSRayCastCallback

namespace JSQueryCallback

/-- The arguments the adapter calls the script function with. -/
def callArguments (fixture : Nat) : List Value :=
  [.hostObject (.fixture fixture)]

/-- Override `ReportFixture` of the local class `JSQueryCallback` in `QueryAABB`: whether
the engine is to continue the query. -/
def ReportFixture (runtime : Runtime) (script : Script) (callback : FunctionId)
    (fixture : Nat) : Result Bool :=
  let result := script callback (callArguments fixture)
  if result.isBool then getBool runtime result else pure true

end JSQueryCallback

namespace JSIBox2dWorld

/-- What `RayCast` and `QueryAABB` (with its own message) do before the engine call:
the callback object, the two vectors, the check for `ReportFixture` and the function
read from it. -/
def callbackArguments (message : String) (arguments : List Value) :
    Result (FunctionId × b2Vec2 × b2Vec2) := do
  let callbackObj ← arg arguments 0 >>= asObject
  let p1 ← arg arguments 1 >>= JSIBox2dVec2.fromValue
  let p2 ← arg arguments 2 >>= JSIBox2dVec2.fromValue
  if !callbackObj.hasProperty "ReportFixture" then
    throw (.jsError message)
  let reportFunc ← callbackObj.getPropertyAsFunction "ReportFixture"
  pure (reportFunc, p1, p2)

/-- Host function `RayCast`.  `reports` are the fixtures for which the engine invokes the
callback during the call, in order; the engine chooses them from the control values it
gets back.  The result carries the script calls made. -/
def RayCast (self : JSIBox2dWorld) (reports : List RayCastReport) (arguments : List Value) :
    Result Value × JSIBox2dWorld × List ScriptCall :=
  match callbackArguments "RayCast callback must have ReportFixture method" arguments with
  | .error e => (.error e, self, [])
  | .ok (reportFunc, p1, p2) =>
    (.ok .undefined, { self with world := self.world.RayCast p1 p2 },
      reports.map fun report => ⟨reportFunc, JSRayCastCallback.callArguments report⟩)

/-- Host function `QueryAABB`.  `reports` are the fixtures for which the engine invokes
the callback during the call, in order. -/
def QueryAABB (self : JSIBox2dWorld) (reports : List Nat) (arguments : List Value) :
    Result Value × JSIBox2dWorld × List ScriptCall :=
  match callbackArguments "QueryAABB callback must have ReportFixture method" arguments with
  | .error e => (.error e, self, [])
  | .ok (reportFunc, lowerBound, upperBound) =>
    (.ok .undefined, { self with world := self.world.QueryAABB lowerBound upperBound },
      reports.map fun fixture => ⟨reportFunc, JSQueryCallback.callArguments fixture⟩)

end JSIBox2dWorld

/-! ## Boolean arguments -/

/-- Engine method `b2Fixture::SetSensor`. -/
def b2Fixture.SetSensor (f : b2Fixture) (sensor : Bool) : b2Fixture :=
  { f with m_isSensor := sensor }

/-- Engine struct `b2Manifold`, as far as the binding reads it. -/
structure b2Manifold where
  pointCount : Nat
  localNormal : b2Vec2
  localPoint : b2Vec2
deriving DecidableEq, Repr

/-- Engine class `b2Contact`, as far as the binding observes it: the enabled flag, the
contact manifold, and `worldManifold`, the struct that the engine's `GetWorldManifold`
writes for the contact in its current state. -/
structure b2Contact where
  m_enabled : Bool
  m_manifold : b2Manifold
  worldManifold : b2WorldManifold
deriving DecidableEq, Repr

/-- Engine method `b2Contact::SetEnabled`. -/
def b2Contact.SetEnabled (c : b2Contact) (flag : Bool) : b2Contact :=
  { c with m_enabled := flag }

namespace JSIBox2dBody

/-- Host function `SetAwake`. -/
def SetAwake (runtime : Runtime) (self : b2Body) (arguments : List Value) :
    Result Value × b2Body :=
  match arg arguments 0 >>= getBool runtime with
  | .error e => (.error e, self)
  | .ok flag => (.ok .undefined, self.call (.SetAwake flag))

/-- Host function `SetEnabled`. -/
def SetEnabled (runtime : Runtime) (self : b2Body) (arguments : List Value) :
    Result Value × b2Body :=
  match arg arguments 0 >>= getBool runtime with
  | .error e => (.error e, self)
  | .ok flag => (.ok .undefined, self.call (.SetEnabled flag))

/-- Host function `SetBullet`. -/
def SetBullet (runtime : Runtime) (self : b2Body) (arguments : List Value) :
    Result Value × b2Body :=
  match arg arguments 0 >>= getBool runtime with
  | .error e => (.error e, self)
  | .ok flag => (.ok .undefined, self.call (.SetBullet flag))

/-- Host function `SetFixedRotation`. -/
def SetFixedRotation (runtime : Runtime) (self : b2Body) (arguments : List Value) :
    Result Value × b2Body :=
  match arg arguments 0 >>= getBool runtime with
  | .error e => (.error e, self)
  | .ok flag => (.ok .undefined, self.call (.SetFixedRotation flag))

end JSIBox2dBody

/-- Host function `SetSensor` of `JSIBox2dFixture`. -/
def JSIBox2dFixture.SetSensor (runtime : Runtime) (self : b2Fixture)
    (arguments : List Value) : Result Value × b2Fixture :=
  match arg arguments 0 >>= getBool runtime with
  | .error e => (.error e, self)
  | .ok sensor => (.ok .undefined, self.SetSensor sensor)

/-- Host function `SetEnabled` of `JSIBox2dContact`; `self` is the engine contact the
wrapper points to. -/
def JSIBox2dContact.SetEnabled (runtime : Runtime) (self : b2Contact)
    (arguments : List Value) : Result Value × b2Contact :=
  match arg arguments 0 >>= getBool runtime with
  | .error e => (.error e, self)
  | .ok enabled => (.ok .undefined, self.SetEnabled enabled)

namespace JSIBox2dRevoluteJointDef

/-- Property setter `enableLimit`; `self` is the definition struct the wrapper shares. -/
def set_enableLimit (runtime : Runtime) (self : b2RevoluteJointDef) (value : Value) :
    Result Unit × b2RevoluteJointDef :=
  match getBool runtime value with
  | .error e => (.error e, self)
  | .ok flag => (.ok (), { self with enableLimit := flag })

/-- Property setter `enableMotor`. -/
def set_enableMotor (runtime : Runtime) (self : b2RevoluteJointDef) (value : Value) :
    Result Unit × b2RevoluteJointDef :=
  match getBool runtime value with
  | .error e => (.error e, self)
  | .ok flag => (.ok (), { self with enableMotor := flag })

end JSIBox2dRevoluteJointDef

/-! ## Body user data -/

/-- Engine struct `b2BodyUserData`: the pointer-sized integer slot `pointer`
(`uintptr_t`, 64 bits wide). -/
structure b2BodyUserData where
  pointer : Nat
deriving DecidableEq, Repr

/-- The cast `(uintptr_t)` of a script number: truncation toward zero, reduced modulo
`2^64`. -/
def toUintptr (n : Number) : Nat := (Int.tdiv n.num n.den % 2 ^ 64).toNat

/-- The number of bits by which a pointer-sized integer exceeds a 53-bit significand:
the number of halvings that bring it below `2^53`. -/
def excessBits : Nat → Nat → Nat
  | 0, _ => 0
  | fuel + 1, p => if p < 2 ^ 53 then 0 else excessBits fuel (p / 2) + 1

/-- The cast `(double)` of a pointer-sized integer: exact below `2^53`; above, the value
is rounded to the nearest number with a 53-bit significand, ties to even. -/
def uintptrToDouble (p : Nat) : Number :=
  if p < 2 ^ 53 then (p : Number)
  else
    let e := excessBits 64 p
    let q := p / 2 ^ e
    let r := p % 2 ^ e
    let half := 2 ^ (e - 1)
    if r < half then ((q * 2 ^ e : Nat) : Number)
    else if half < r then (((q + 1) * 2 ^ e : Nat) : Number)
    else if q % 2 = 0 then ((q * 2 ^ e : Nat) : Number)
    else (((q + 1) * 2 ^ e : Nat) : Number)

namespace JSIBox2dBody

/-- Host function `GetUserData`; `userData` is the struct `getObject()->GetUserData()`
refers to. -/
def GetUserData (userData : b2BodyUserData) (_arguments : List Value) : Result Value :=
  .ok (.number (uintptrToDouble userData.pointer))

/-- Host function `SetUserData`; it writes through the reference
`getObject()->GetUserData()`. -/
def SetUserData (userData : b2BodyUserData) (arguments : List Value) :
    Result Value × b2BodyUserData :=
  match arg arguments 0 >>= asNumber with
  | .error e => (.error e, userData)
  | .ok n => (.ok .undefined, { userData with pointer := toUintptr n })

end JSIBox2dBody

/-! ## JSIBox2dWorldManifold and JSIBox2dContact -/

namespace JSIBox2dWorldManifold

/-- Host function `get_normal`. -/
def get_normal (self : JSIBox2dWorldManifold) (_arguments : List Value) : Result Value :=
  .ok (.object [("x", .number (toDouble self.manifold.normal.x)),
                ("y", .number (toDouble self.manifold.normal.y))])

/-- Host function `get_points`: for `i` from 0 below `pointCount`, `manifold.points[i]` is
read and stored at index `i` of the script array. -/
def get_points (self : JSIBox2dWorldManifold) (_arguments : List Value) : Result Value := do
  let pointsArr ← (List.range self.pointCount).mapM fun i =>
    match self.manifold.points.get? i with
    | some p => .ok (Value.object [("x", .number (toDouble p.x)), ("y", .number (toDouble p.y))])
    | none => .error (.outOfRange i)
  pure (.array pointsArr)

/-- Host function `get_separations`. -/
def get_separations (self : JSIBox2dWorldManifold) (_arguments : List Value) :
    Result Value := do
  let sepArr ← (List.range self.pointCount).mapM fun i =>
    match self.manifold.separations.get? i with
    | some s => .ok (Value.number (toDouble s))
    | none => .error (.outOfRange i)
  pure (.array sepArr)

end JSIBox2dWorldManifold

/-- Host function `GetWorldManifold` of `JSIBox2dContact`: the engine fills a local
struct, which is copied, with the point count of the contact manifold, into a new
`JSIBox2dWorldManifold`. -/
def JSIBox2dContact.GetWorldManifold (self : b2Contact) (_arguments : List Value) :
    Result Value :=
  let worldManifold := self.worldManifold
  let manifold := self.m_manifold
  .ok (.hostObject (.worldManifold ⟨worldManifold, manifold.pointCount⟩))

/-! ## JSIBox2dMouseJoint and JSIBox2dMouseJointDef -/

/-- Engine class `b2MouseJoint`, as far as the binding observes it: the target. -/
structure b2MouseJoint where
  m_targetA : b2Vec2
deriving DecidableEq, Repr

/-- Engine method `b2MouseJoint::SetTarget`. -/
def b2MouseJoint.SetTarget (j : b2MouseJoint) (target : b2Vec2) : b2MouseJoint :=
  { j with m_targetA := target }

/-- Engine method `b2MouseJoint::GetTarget`. -/
def b2MouseJoint.GetTarget (j : b2MouseJoint) : b2Vec2 := j.m_targetA

/-- Modelled from the spec: the export macros `B2D_JSI_EXPORT_FUNCTIONS` and
`B2D_JSI_EXPORT_FUNC` (jsi/Box2dJsiHostObject.h is missing).  A wrapper is polymorphic
over the method set declared by its concrete class: it exposes a function to the script
exactly when the export table of its class lists it. -/
def exposes (table : List (String × String)) (name : String) : Bool :=
  table.any fun entry => entry.2 == name

/-- The export table of `JSIBox2dJoint`: pairs of class and function. -/
def JSIBox2dJoint.exportedFunctions : List (String × String) :=
  [("JSIBox2dJoint", "GetBodyA"),
   ("JSIBox2dJoint", "GetBodyB"),
   ("JSIBox2dJoint", "GetType"),
   ("JSIBox2dJoint", "IsEnabled"),
   ("JSIBox2dJoint", "SetMotorSpeed"),
   ("JSIBox2dJoint", "GetMotorSpeed"),
   ("JSIBox2dJoint", "EnableMotor"),
   ("JSIBox2dJoint", "SetMaxMotorTorque")]

namespace JSIBox2dMouseJoint

/-- Host function `SetTarget`; `self` is the engine mouse joint `getMouseJoint()`
returns. -/
def SetTarget (self : b2MouseJoint) (arguments : List Value) : Result Value × b2MouseJoint :=
  match arg arguments 0 >>= JSIBox2dVec2.fromValue with
  | .error e => (.error e, self)
  | .ok target => (.ok .undefined, self.SetTarget target)

/-- Host function `GetTarget`. -/
def GetTarget (self : b2MouseJoint) (_arguments : List Value) : Result Value :=
  .ok (JSIBox2dVec2.toValue self.GetTarget)

/-- The export table of `JSIBox2dMouseJoint`. -/
def exportedFunctions : List (String × String) :=
  [("JSIBox2dJoint", "GetBodyA"),
   ("JSIBox2dJoint", "GetBodyB"),
   ("JSIBox2dMouseJoint", "SetTarget"),
   ("JSIBox2dMouseJoint", "GetTarget")]

end JSIBox2dMouseJoint

/-- Static method `JSIBox2dBody::fromValue`: the raw handle behind a Body host object. -/
def JSIBox2dBody.fromValue (obj : Value) : Result BodyHandle :=
  match asObject obj with
  | .error e => .error e
  | .ok o =>
    match o with
    | .hostObject (.body b) => .ok b
    | _ => .error (.jsError "Object is not a HostObject of desired type")

namespace JSIBox2dMouseJointDef

/-- Property setter `bodyA`; `self` is the definition struct the wrapper shares. -/
def set_bodyA (self : b2MouseJointDef) (value : Value) : Result Unit × b2MouseJointDef :=
  match JSIBox2dBody.fromValue value with
  | .error e => (.error e, self)
  | .ok body => (.ok (), { self with bodyA := some body })

/-- Property setter `bodyB`. -/
def set_bodyB (self : b2MouseJointDef) (value : Value) : Result Unit × b2MouseJointDef :=
  match JSIBox2dBody.fromValue value with
  | .error e => (.error e, self)
  | .ok body => (.ok (), { self with bodyB := some body })

end JSIBox2dMouseJointDef

/-! ## Property setters of the joint definitions -/

namespace JSIBox2dDistanceJointDef

/-- Property setter `length`; `self` is the definition struct the wrapper shares. -/
def set_length (self : b2DistanceJointDef) (value : Value) : Result Unit × b2DistanceJointDef :=
  match asNumber value with
  | .error e => (.error e, self)
  | .ok n => (.ok (), { self with length := toFloat n })

/-- Property setter `minLength`. -/
def set_minLength (self : b2DistanceJointDef) (value : Value) : Result Unit × b2DistanceJointDef :=
  match asNumber value with
  | .error e => (.error e, self)
  | .ok n => (.ok (), { self with minLength := toFloat n })

/-- Property setter `maxLength`. -/
def set_maxLength (self : b2DistanceJointDef) (value : Value) : Result Unit × b2DistanceJointDef :=
  match asNumber value with
  | .error e => (.error e, self)
  | .ok n => (.ok (), { self with maxLength := toFloat n })

/-- Property setter `stiffness`. -/
def set_stiffness (self : b2DistanceJointDef) (value : Value) : Result Unit × b2DistanceJointDef :=
  match asNumber value with
  | .error e => (.error e, self)
  | .ok n => (.ok (), { self with stiffness := toFloat n })

/-- Property setter `damping`. -/
def set_damping (self : b2DistanceJointDef) (value : Value) : Result Unit × b2DistanceJointDef :=
  match asNumber value with
  | .error e => (.error e, self)
  | .ok n => (.ok (), { self with damping := toFloat n })

end JSIBox2dDistanceJointDef

namespace JSIBox2dRevoluteJointDef

/-- Property setter `lowerAngle`. -/
def set_lowerAngle (self : b2RevoluteJointDef) (value : Value) : Result Unit × b2RevoluteJointDef :=
  match asNumber value with
  | .error e => (.error e, self)
  | .ok n => (.ok (), { self with lowerAngle := toFloat n })

/-- Property setter `upperAngle`. -/
def set_upperAngle (self : b2RevoluteJointDef) (value : Value) : Result Unit × b2RevoluteJointDef :=
  match asNumber value with
  | .error e => (.error e, self)
  | .ok n => (.ok (), { self with upperAngle := toFloat n })

/-- Property setter `motorSpeed`. -/
def set_motorSpeed (self : b2RevoluteJointDef) (value : Value) : Result Unit × b2RevoluteJointDef :=
  match asNumber value with
  | .error e => (.error e, self)
  | .ok n => (.ok (), { self with motorSpeed := toFloat n })

/-- Property setter `maxMotorTorque`. -/
def set_maxMotorTorque (self : b2RevoluteJointDef) (value : Value) : Result Unit × b2RevoluteJointDef :=
  match asNumber value with
  | .error e => (.error e, self)
  | .ok n => (.ok (), { self with maxMotorTorque := toFloat n })

end JSIBox2dRevoluteJointDef

namespace JSIBox2dMouseJointDef

/-- Property setter `target`. -/
def set_target (self : b2MouseJointDef) (value : Value) : Result Unit × b2MouseJointDef :=
  match JSIBox2dVec2.fromValue value with
  | .error e => (.error e, self)
  | .ok target => (.ok (), { self with target := target })

/-- Property setter `maxForce`. -/
def set_maxForce (self : b2MouseJointDef) (value : Value) : Result Unit × b2MouseJointDef :=
  match asNumber value with
  | .error e => (.error e, self)
  | .ok n => (.ok (), { self with maxForce := toFloat n })

/-- Property setter `stiffness`. -/
def set_stiffness (self : b2MouseJointDef) (value : Value) : Result Unit × b2MouseJointDef :=
  match asNumber value with
  | .error e => (.error e, self)
  | .ok n => (.ok (), { self with stiffness := toFloat n })

/-- Property setter `damping`. -/
def set_damping (self : b2MouseJointDef) (value : Value) : Result Unit × b2MouseJointDef :=
  match asNumber value with
  | .error e => (.error e, self)
  | .ok n => (.ok (), { self with damping := toFloat n })

end JSIBox2dMouseJointDef

/-! ## Initialize of the joint definitions, SetTransform, GetFilterData -/

/-- What the engine's `Initialize` functions read besides their arguments: the local
point and the angle of the body behind a handle, the length of a vector (a square
root in the engine scalar) and the constant `b2_linearSlop`. -/
structure b2Engine where
  GetLocalPoint : BodyHandle → b2Vec2 → b2Vec2
  GetAngle : BodyHandle → Number
  Length : b2Vec2 → Number
  b2_linearSlop : Number

/-- Engine method `b2RevoluteJointDef::Initialize`. -/
def b2RevoluteJointDef.Initialize (d : b2RevoluteJointDef) (engine : b2Engine)
    (bA bB : BodyHandle) (anchor : b2Vec2) : b2RevoluteJointDef :=
  { d with
    bodyA := some bA
    bodyB := some bB
    localAnchorA := engine.GetLocalPoint bA anchor
    localAnchorB := engine.GetLocalPoint bB anchor
    referenceAngle := engine.GetAngle bB - engine.GetAngle bA }

/-- Engine method `b2DistanceJointDef::Initialize`. -/
def b2DistanceJointDef.Initialize (d : b2DistanceJointDef) (engine : b2Engine)
    (b1 b2 : BodyHandle) (anchor1 anchor2 : b2Vec2) : b2DistanceJointDef :=
  let length := max (engine.Length ⟨anchor2.x - anchor1.x, anchor2.y - anchor1.y⟩)
    engine.b2_linearSlop
  { d with
    bodyA := some b1
    bodyB := some b2
    localAnchorA := engine.GetLocalPoint b1 anchor1
    localAnchorB := engine.GetLocalPoint b2 anchor2
    length := length
    minLength := length
    maxLength := length }

namespace JSIBox2dRevoluteJointDef

/-- The arguments `Initialize` converts before the call on the definition struct. -/
def initializeArguments (arguments : List Value) :
    Result (BodyHandle × BodyHandle × b2Vec2) := do
  let bodyA ← arg arguments 0 >>= JSIBox2dBody.fromValue
  let bodyB ← arg arguments 1 >>= JSIBox2dBody.fromValue
  let anchor ← arg arguments 2 >>= JSIBox2dVec2.fromValue
  pure (bodyA, bodyB, anchor)

/-- Host function `Initialize`. -/
def Initialize (engine : b2Engine) (self : b2RevoluteJointDef) (arguments : List Value) :
    Result Value × b2RevoluteJointDef :=
  match initializeArguments arguments with
  | .error e => (.error e, self)
  | .ok (bodyA, bodyB, anchor) =>
    (.ok .undefined, self.Initialize engine bodyA bodyB anchor)

end JSIBox2dRevoluteJointDef

namespace JSIBox2dDistanceJointDef

/-- The arguments `Initialize` converts before the call on the definition struct. -/
def initializeArguments (arguments : List Value) :
    Result (BodyHandle × BodyHandle × b2Vec2 × b2Vec2) := do
  let bodyA ← arg arguments 0 >>= JSIBox2dBody.fromValue
  let bodyB ← arg arguments 1 >>= JSIBox2dBody.fromValue
  let anchorA ← arg arguments 2 >>= JSIBox2dVec2.fromValue
  let anchorB ← arg arguments 3 >>= JSIBox2dVec2.fromValue
  pure (bodyA, bodyB, anchorA, anchorB)

/-- Host function `Initialize`. -/
def Initialize (engine : b2Engine) (self : b2DistanceJointDef) (arguments : List Value) :
    Result Value × b2DistanceJointDef :=
  match initializeArguments arguments with
  | .error e => (.error e, self)
  | .ok (bodyA, bodyB, anchorA, anchorB) =>
    (.ok .undefined, self.Initialize engine bodyA bodyB anchorA anchorB)

end JSIBox2dDistanceJointDef

namespace JSIBox2dBody

/-- The arguments `SetTransform` passes to its engine call: `*position`, with the raw
pointer kept from `arguments[0]`, and the angle. -/
def setTransformArguments (runtime : Runtime) (arguments : List Value) :
    Result (b2Vec2 × Number) := do
  let position ← arg arguments 0 >>= JSIBox2dVec2.fromValueGet
  let angle ← arg arguments 1 >>= asNumber
  pure (position.deref runtime, toFloat angle)

/-- Host function `SetTransform`. -/
def SetTransform (runtime : Runtime) (self : b2Body) (arguments : List Value) :
    Result Value × b2Body :=
  match setTransformArguments runtime arguments with
  | .error e => (.error e, self)
  | .ok (position, angle) => (.ok .undefined, self.call (.SetTransform position angle))

end JSIBox2dBody

/-- Engine method `b2Fixture::GetFilterData`. -/
def b2Fixture.GetFilterData (f : b2Fixture) : b2Filter := f.m_filter

/-- The cast `(int)` of a field of the filter, handed to the script as a number. -/
def intToNumber (i : Int) : Number := (i : Number)

/-- The read of a `uint16` field of an engine struct: the field holds 16 bits. -/
def readUint16 (field : Nat) : Nat := field % 65536

/-- The read of an `int16` field of an engine struct: the field holds 16 bits in two's
complement. -/
def readInt16 (field : Int) : Int :=
  let m := field % 65536
  if m < 32768 then m else m - 65536

/-- Host function `GetFilterData` of `JSIBox2dFixture`: each field of the engine filter
is read at its machine type (`uint16`, `uint16`, `int16`), widened by the cast `(int)`
and stored in a fresh object. -/
def JSIBox2dFixture.GetFilterData (self : b2Fixture) (_arguments : List Value) :
    Result Value :=
  let filter := self.GetFilterData
  .ok (.object
    [("categoryBits", .number (intToNumber (readUint16 filter.categoryBits : Int))),
      ("maskBits", .number (intToNumber (readUint16 filter.maskBits : Int))),
      ("groupIndex", .number (intToNumber (readInt16 filter.groupIndex)))])

/-! ## Properties of setters -/

/-- Applying a setter with a value twice gives the outcome and the struct of applying it
once. -/
def IdempotentSetter {σ : Type} (setter : σ → Value → Result Unit × σ) : Prop :=
  ∀ (d : σ) (v : Value), setter (setter d v).2 v = setter d v

/-- Applying a setter with the current value of its field, as the script sees it,
succeeds and leaves the struct unchanged. -/
def NoOpOnCurrent {σ : Type} (setter : σ → Value → Result Unit × σ) (current : σ → Value) :
    Prop :=
  ∀ d : σ, setter d (current d) = (.ok (), d)

/-! ## Theorems -/

namespace JSIBox2dWorld

/-- C1: `CreateJoint` dispatches on the concrete host-object class of its first argument.
For a RevoluteJointDef or a DistanceJointDef the engine creates a joint from that
definition's struct and the call returns a base Joint wrapper holding the created joint;
for a MouseJointDef it returns a MouseJoint wrapper holding the created joint.  In each
case the world afterwards is the world after that one engine call: the call log grows by
exactly the one `CreateJoint` entry, and the stored listener is untouched. -/
theorem CreateJoint_dispatch (self : JSIBox2dWorld) (rest : List Value) :
    (∀ d : b2RevoluteJointDef,
      CreateJoint self (.hostObject (.revoluteJointDef d) :: rest) =
        (.ok (.hostObject (.joint (self.world.CreateJoint (.revolute d)).1)),
          { self with world := (self.world.CreateJoint (.revolute d)).2 })) ∧
    (∀ d : b2DistanceJointDef,
      CreateJoint self (.hostObject (.distanceJointDef d) :: rest) =
        (.ok (.hostObject (.joint (self.world.CreateJoint (.distance d)).1)),
          { self with world := (self.world.CreateJoint (.distance d)).2 })) ∧
    (∀ d : b2MouseJointDef,
      CreateJoint self (.hostObject (.mouseJointDef d) :: rest) =
        (.ok (.hostObject (.mouseJoint (self.world.CreateJoint (.mouse d)).1)),
          { self with world := (self.world.CreateJoint (.mouse d)).2 })) ∧
    (∀ jd : b2JointDef,
      (self.world.CreateJoint jd).2.calls = self.world.calls ++ [.CreateJoint jd] ∧
      createJointCount (self.world.CreateJoint jd).2.calls
        = createJointCount self.world.calls + 1 ∧
      (self.world.CreateJoint jd).2.m_contactListener = self.world.m_contactListener) := by
  refine ⟨fun d => rfl, fun d => rfl, fun d => rfl, fun jd => ⟨rfl, ?_, rfl⟩⟩
  simp [b2World.CreateJoint, createJointCount, List.countP_append]

end JSIBox2dWorld

namespace JSIBox2dJoint

/-- C3: on a joint whose type tag does not support a motor operation, that operation is
a silent no-op.  When the tag is neither revolute nor wheel, `SetMaxMotorTorque` called
with a number returns undefined and leaves the engine joint, call log included, as it
was; when the tag is not prismatic either (a distance or mouse joint, say), the same
holds of `SetMotorSpeed` called with a number and of `EnableMotor` called with a
boolean, and `GetMotorSpeed` returns 0.  Whatever the arguments, the engine joint is
left unchanged. -/
theorem motor_ops_unsupported (runtime : Runtime) (self : b2Joint)
    (hr : self.m_type ≠ .e_revoluteJoint) (hw : self.m_type ≠ .e_wheelJoint) :
    ((∀ (torque : Number) (rest : List Value),
        SetMaxMotorTorque self (.number torque :: rest) = (.ok .undefined, self)) ∧
      ∀ arguments, (SetMaxMotorTorque self arguments).2 = self) ∧
    (self.m_type ≠ .e_prismaticJoint →
      (∀ (speed : Number) (rest : List Value),
        SetMotorSpeed self (.number speed :: rest) = (.ok .undefined, self)) ∧
      (∀ (enable : Bool) (rest : List Value),
        EnableMotor runtime self (.bool enable :: rest) = (.ok .undefined, self)) ∧
      (∀ arguments, GetMotorSpeed self arguments = .ok (.number 0)) ∧
      (∀ arguments, (SetMotorSpeed self arguments).2 = self) ∧
      (∀ arguments, (EnableMotor runtime self arguments).2 = self)) := by
  obtain ⟨t, em, ms, mt, calls⟩ := self
  refine ⟨⟨fun torque rest => ?_, fun arguments => ?_⟩, fun hp =>
    ⟨fun speed rest => ?_, fun enable rest => ?_, fun arguments => ?_,
      fun arguments => ?_, fun arguments => ?_⟩⟩
  · cases t <;> simp_all [SetMaxMotorTorque, arg, asNumber, bind, Except.bind, b2Joint.GetType]
  · unfold SetMaxMotorTorque
    cases arg arguments 0 >>= asNumber <;> cases t <;> simp_all [b2Joint.GetType]
  · cases t <;> simp_all [SetMotorSpeed, arg, asNumber, bind, Except.bind, b2Joint.GetType]
  · cases t <;> simp_all [EnableMotor, arg, getBool, bind, Except.bind, b2Joint.GetType]
  · cases t <;> simp_all [GetMotorSpeed, b2Joint.GetType]
  · unfold SetMotorSpeed
    cases arg arguments 0 >>= asNumber <;> cases t <;> simp_all [b2Joint.GetType]
  · unfold EnableMotor
    cases arg arguments 0 >>= getBool runtime <;> cases t <;> simp_all [b2Joint.GetType]

/-- Witness for C3 at a distance joint: `SetMotorSpeed(1)` returns undefined, changes
nothing, and `GetMotorSpeed()` returns 0. -/
theorem motor_ops_unsupported_witness :
    (b2Joint.mk .e_distanceJoint false 0 0 []).m_type ≠ .e_revoluteJoint ∧
    (b2Joint.mk .e_distanceJoint false 0 0 []).m_type ≠ .e_wheelJoint ∧
    (b2Joint.mk .e_distanceJoint false 0 0 []).m_type ≠ .e_prismaticJoint ∧
    SetMaxMotorTorque ⟨.e_distanceJoint, false, 0, 0, []⟩ [.number 5]
      = (.ok .undefined, ⟨.e_distanceJoint, false, 0, 0, []⟩) ∧
    SetMotorSpeed ⟨.e_distanceJoint, false, 0, 0, []⟩ [.number 1]
      = (.ok .undefined, ⟨.e_distanceJoint, false, 0, 0, []⟩) ∧
    EnableMotor Runtime.checked ⟨.e_distanceJoint, false, 0, 0, []⟩ [.bool true]
      = (.ok .undefined, ⟨.e_distanceJoint, false, 0, 0, []⟩) ∧
    GetMotorSpeed ⟨.e_distanceJoint, false, 0, 0, []⟩ [] = .ok (.number 0) :=
  ⟨by decide, by decide, by decide,
    (motor_ops_unsupported Runtime.checked ⟨.e_distanceJoint, false, 0, 0, []⟩
      (by decide) (by decide)).1.1 5 [],
    ((motor_ops_unsupported Runtime.checked ⟨.e_distanceJoint, false, 0, 0, []⟩
      (by decide) (by decide)).2 (by decide)).1 1 [],
    ((motor_ops_unsupported Runtime.checked ⟨.e_distanceJoint, false, 0, 0, []⟩
      (by decide) (by decide)).2 (by decide)).2.1 true [],
    ((motor_ops_unsupported Runtime.checked ⟨.e_distanceJoint, false, 0, 0, []⟩
      (by decide) (by decide)).2 (by decide)).2.2.1 []⟩

end JSIBox2dJoint

/-- The cast `(uint16)` is exact on the integers of the `uint16` range. -/
theorem toUint16_natCast (k : Nat) (h : k < 65536) : toUint16 (k : Rat) = k := by
  simp [toUint16]
  omega

/-- The cast `(int16)` is exact on the integers of the `int16` range. -/
theorem toInt16_intCast (g : Int) (h1 : -32768 ≤ g) (h2 : g ≤ 32767) :
    toInt16 (g : Rat) = g := by
  simp [toInt16]
  omega

/-- A value for which `isNumber` holds is a number. -/
theorem Value.eq_number_of_isNumber {v : Value} (h : v.isNumber = true) :
    ∃ n, v = .number n := by
  cases v <;> simp_all [Value.isNumber]

namespace JSIBox2dFixture

/-- C4, as stated, fails: `SetFilterData` with an argument object that has none of the
three fields does not keep the fixture's filter `(2, 4, 7)`; every field is replaced by
the value of a default-constructed `b2Filter`. -/
theorem SetFilterData_absent_fields_not_kept :
    Value.hasProperty (.object []) "categoryBits" = false ∧
    Value.hasProperty (.object []) "maskBits" = false ∧
    Value.hasProperty (.object []) "groupIndex" = false ∧
    (SetFilterData ⟨⟨2, 4, 7⟩, false⟩ [.object []]).1 = .ok .undefined ∧
    (SetFilterData ⟨⟨2, 4, 7⟩, false⟩ [.object []]).2.m_filter = ⟨1, 65535, 0⟩ ∧
    (SetFilterData ⟨⟨2, 4, 7⟩, false⟩ [.object []]).2.m_filter.categoryBits
      ≠ (b2Fixture.mk ⟨2, 4, 7⟩ false).m_filter.categoryBits ∧
    (SetFilterData ⟨⟨2, 4, 7⟩, false⟩ [.object []]).2.m_filter.maskBits
      ≠ (b2Fixture.mk ⟨2, 4, 7⟩ false).m_filter.maskBits ∧
    (SetFilterData ⟨⟨2, 4, 7⟩, false⟩ [.object []]).2.m_filter.groupIndex
      ≠ (b2Fixture.mk ⟨2, 4, 7⟩ false).m_filter.groupIndex := by
  refine ⟨rfl, rfl, rfl, rfl, rfl, ?_, ?_, ?_⟩ <;> decide

/-- C4, amended: `SetFilterData` replaces the fixture's whole filter.  For every fixture
and every plain argument object in which each of `categoryBits`, `maskBits` and
`groupIndex` that is present is a number, the call returns undefined and, field by
field, the fixture's filter afterwards holds the value of a default-constructed
`b2Filter` (1, 0xFFFF, 0) where the field is absent, and the given number cast to the
field's 16-bit type where it is present; the cast is exact on the integers of the
field's range, so such a value is stored as given.  Nothing else of the fixture
changes. -/
theorem SetFilterData_fields (self : b2Fixture) (props : List (String × Value))
    (rest : List Value)
    (hnum : ∀ name ∈ ["categoryBits", "maskBits", "groupIndex"],
      ∀ v, props.lookup name = some v → v.isNumber = true) :
    (SetFilterData self (.object props :: rest)).1 = .ok .undefined ∧
    (SetFilterData self (.object props :: rest)).2.m_isSensor = self.m_isSensor ∧
    (props.lookup "categoryBits" = none →
      (SetFilterData self (.object props :: rest)).2.m_filter.categoryBits = 1) ∧
    (props.lookup "maskBits" = none →
      (SetFilterData self (.object props :: rest)).2.m_filter.maskBits = 65535) ∧
    (props.lookup "groupIndex" = none →
      (SetFilterData self (.object props :: rest)).2.m_filter.groupIndex = 0) ∧
    (∀ n, props.lookup "categoryBits" = some (.number n) →
      (SetFilterData self (.object props :: rest)).2.m_filter.categoryBits = toUint16 n) ∧
    (∀ n, props.lookup "maskBits" = some (.number n) →
      (SetFilterData self (.object props :: rest)).2.m_filter.maskBits = toUint16 n) ∧
    (∀ n, props.lookup "groupIndex" = some (.number n) →
      (SetFilterData self (.object props :: rest)).2.m_filter.groupIndex = toInt16 n) ∧
    (∀ k : Nat, k < 65536 → toUint16 (k : Number) = k) ∧
    (∀ g : Int, -32768 ≤ g → g ≤ 32767 → toInt16 (g : Number) = g) := by
  have hc := hnum "categoryBits" (by simp)
  have hm := hnum "maskBits" (by simp)
  have hg := hnum "groupIndex" (by simp)
  have key : ∀ name, (∀ v, props.lookup name = some v → v.isNumber = true) →
      props.lookup name = none ∨ ∃ n, props.lookup name = some (.number n) := by
    intro name h
    cases hl : props.lookup name with
    | none => exact Or.inl rfl
    | some v =>
      obtain ⟨n, rfl⟩ := Value.eq_number_of_isNumber (h v hl)
      exact Or.inr ⟨n, rfl⟩
  refine ⟨?_, ?_, ?_, ?_, ?_, ?_, ?_, ?_, toUint16_natCast, toInt16_intCast⟩ <;>
    rcases key _ hc with h1 | ⟨n1, h1⟩ <;>
    rcases key _ hm with h2 | ⟨n2, h2⟩ <;>
    rcases key _ hg with h3 | ⟨n3, h3⟩ <;>
    simp [SetFilterData, filterOfArguments, arg, asObject, Value.isObject,
      Value.hasProperty, Value.getProperty, asNumber, b2Fixture.SetFilterData,
      b2Filter.ctor, bind, Except.bind, pure, Except.pure, h1, h2, h3]

/-- Witness for C4 amended: on a fixture with filter `(2, 4, 7)`, the argument object
with only `maskBits = 6` yields the filter `(1, 6, 0)`. -/
theorem SetFilterData_fields_witness :
    (∀ name ∈ ["categoryBits", "maskBits", "groupIndex"],
      ∀ v, List.lookup name [("maskBits", Value.number 6)] = some v → v.isNumber = true) ∧
    (SetFilterData ⟨⟨2, 4, 7⟩, false⟩ [.object [("maskBits", .number 6)]]).1
      = .ok .undefined ∧
    (SetFilterData ⟨⟨2, 4, 7⟩, false⟩ [.object [("maskBits", .number 6)]]).2.m_filter.categoryBits
      = 1 ∧
    (SetFilterData ⟨⟨2, 4, 7⟩, false⟩ [.object [("maskBits", .number 6)]]).2.m_filter.maskBits
      = toUint16 6 ∧
    toUint16 6 = 6 :=
  have h : ∀ name ∈ ["categoryBits", "maskBits", "groupIndex"],
      ∀ v, List.lookup name [("maskBits", Value.number 6)] = some v → v.isNumber = true := by
    intro name hmem v hv
    simp only [List.mem_cons, List.mem_singleton, List.not_mem_nil, or_false] at hmem
    rcases hmem with rfl | rfl | rfl
    · simp [List.lookup] at hv
    · simp only [List.lookup, beq_self_eq_true, Option.some.injEq] at hv
      subst hv
      rfl
    · simp [List.lookup] at hv
  ⟨h,
    (SetFilterData_fields ⟨⟨2, 4, 7⟩, false⟩ [("maskBits", .number 6)] [] h).1,
    (SetFilterData_fields ⟨⟨2, 4, 7⟩, false⟩ [("maskBits", .number 6)] [] h).2.2.1 rfl,
    (SetFilterData_fields ⟨⟨2, 4, 7⟩, false⟩ [("maskBits", .number 6)] [] h).2.2.2.2.2.2.1
      6 rfl,
    (SetFilterData_fields ⟨⟨2, 4, 7⟩, false⟩ [("maskBits", .number 6)] [] h).2.2.2.2.2.2.2.2.1
      6 (by decide)⟩

end JSIBox2dFixture

namespace JSIBox2dBody

/-- The wake argument of `ApplyForce`, `ApplyLinearImpulse`, `ApplyTorque` and
`ApplyAngularImpulse`, and the forwarding of live arguments: when the trailing wake
argument is omitted the one engine call is made with `wake = true`, and when a boolean
wake is supplied the engine call is made with exactly that boolean; vectors passed as
Vec2 host objects and the number (narrowed to the engine scalar) are forwarded as they
are.  Each call returns undefined. -/
theorem Apply_wake_live (runtime : Runtime) (self : b2Body) (force point : b2Vec2)
    (n : Number) :
    ApplyForce runtime self [.hostObject (.vec2 force), .hostObject (.vec2 point)]
      = (.ok .undefined, self.call (.ApplyForce force point true)) ∧
    (∀ (wake : Bool) (rest : List Value),
      ApplyForce runtime self
          (.hostObject (.vec2 force) :: .hostObject (.vec2 point) :: .bool wake :: rest)
        = (.ok .undefined, self.call (.ApplyForce force point wake))) ∧
    ApplyLinearImpulse runtime self [.hostObject (.vec2 force), .hostObject (.vec2 point)]
      = (.ok .undefined, self.call (.ApplyLinearImpulse force point true)) ∧
    (∀ (wake : Bool) (rest : List Value),
      ApplyLinearImpulse runtime self
          (.hostObject (.vec2 force) :: .hostObject (.vec2 point) :: .bool wake :: rest)
        = (.ok .undefined, self.call (.ApplyLinearImpulse force point wake))) ∧
    ApplyTorque runtime self [.number n]
      = (.ok .undefined, self.call (.ApplyTorque (toFloat n) true)) ∧
    (∀ (wake : Bool) (rest : List Value),
      ApplyTorque runtime self (.number n :: .bool wake :: rest)
        = (.ok .undefined, self.call (.ApplyTorque (toFloat n) wake))) ∧
    ApplyAngularImpulse runtime self [.number n]
      = (.ok .undefined, self.call (.ApplyAngularImpulse (toFloat n) true)) ∧
    (∀ (wake : Bool) (rest : List Value),
      ApplyAngularImpulse runtime self (.number n :: .bool wake :: rest)
        = (.ok .undefined, self.call (.ApplyAngularImpulse (toFloat n) wake))) := by
  refine ⟨rfl, fun wake rest => ?_, rfl, fun wake rest => ?_, rfl, fun wake rest => ?_, rfl,
    fun wake rest => ?_⟩ <;>
  simp [ApplyForce, ApplyLinearImpulse, ApplyTorque, ApplyAngularImpulse, atPointArguments,
    angularArguments, arg, asNumber, getBool, bind, Except.bind, pure, Except.pure,
    JSIBox2dVec2.fromValueGet, JSIBox2dVec2.fromValue, b2Vec2Ptr.deref]

/-- C5: `ApplyForce` and `ApplyLinearImpulse` do not forward a vector given as a script
object.  Called with the force `\x7bx: 1, y: 0\x7d` and the point `\x7bx: 5, y: 7\x7d`
(and no wake, or a boolean wake), each keeps the raw pointers `fromValue(...).get()` of
two temporaries that are freed before the engine call, and the engine call is made with
what the freed memory then holds, not with `(1, 0)` and `(5, 7)`: on a runtime where freed
memory reads as zero the engine receives `(0, 0)` and `(0, 0)`.  The wake flag itself is
`true` when omitted and the given boolean when supplied. -/
theorem Apply_plain_vector_freed :
    (∀ (runtime : Runtime) (self : b2Body),
      ApplyForce runtime self
          [.object [("x", .number 1), ("y", .number 0)],
            .object [("x", .number 5), ("y", .number 7)]]
        = (.ok .undefined,
            self.call (.ApplyForce (runtime.freedVec2 ⟨1, 0⟩) (runtime.freedVec2 ⟨5, 7⟩)
              true)) ∧
      ApplyLinearImpulse runtime self
          [.object [("x", .number 1), ("y", .number 0)],
            .object [("x", .number 5), ("y", .number 7)]]
        = (.ok .undefined,
            self.call (.ApplyLinearImpulse (runtime.freedVec2 ⟨1, 0⟩)
              (runtime.freedVec2 ⟨5, 7⟩) true)) ∧
      ∀ wake : Bool,
        ApplyForce runtime self
            [.object [("x", .number 1), ("y", .number 0)],
              .object [("x", .number 5), ("y", .number 7)], .bool wake]
          = (.ok .undefined,
              self.call (.ApplyForce (runtime.freedVec2 ⟨1, 0⟩) (runtime.freedVec2 ⟨5, 7⟩)
                wake))) ∧
    ApplyForce Runtime.unchecked ⟨[]⟩
        [.object [("x", .number 1), ("y", .number 0)],
          .object [("x", .number 5), ("y", .number 7)]]
      = (.ok .undefined, ⟨[.ApplyForce ⟨0, 0⟩ ⟨0, 0⟩ true]⟩) ∧
    ApplyForce Runtime.unchecked ⟨[]⟩
        [.object [("x", .number 1), ("y", .number 0)],
          .object [("x", .number 5), ("y", .number 7)]]
      ≠ (.ok .undefined, ⟨[.ApplyForce ⟨1, 0⟩ ⟨5, 7⟩ true]⟩) ∧
    ApplyLinearImpulse Runtime.unchecked ⟨[]⟩
        [.object [("x", .number 1), ("y", .number 0)],
          .object [("x", .number 5), ("y", .number 7)]]
      ≠ (.ok .undefined, ⟨[.ApplyLinearImpulse ⟨1, 0⟩ ⟨5, 7⟩ true]⟩) := by
  refine ⟨fun runtime self => ⟨rfl, rfl, fun wake => rfl⟩, rfl, ?_, ?_⟩
  · intro h
    have h2 := congrArg (fun r => r.2.calls) h
    revert h2
    decide
  · intro h
    have h2 := congrArg (fun r => r.2.calls) h
    revert h2
    decide

/-- C6: called with only the vector argument (argument count 1), `ApplyForceToCenter`
and `ApplyLinearImpulseToCenter` do not succeed: both read `arguments[1]` without
looking at the argument count, the read is out of range, and no engine call is made.
With a boolean second argument they forward the vector and that boolean. -/
theorem ToCenter_without_wake (runtime : Runtime) :
    ApplyForceToCenter runtime ⟨[]⟩ [.hostObject (.vec2 ⟨1, 0⟩)]
      = (.error (.outOfRange 1), ⟨[]⟩) ∧
    ApplyLinearImpulseToCenter runtime ⟨[]⟩ [.hostObject (.vec2 ⟨1, 0⟩)]
      = (.error (.outOfRange 1), ⟨[]⟩) ∧
    ApplyForceToCenter runtime ⟨[]⟩ [.hostObject (.vec2 ⟨1, 0⟩), .bool true]
      = (.ok .undefined, ⟨[.ApplyForceToCenter ⟨1, 0⟩ true]⟩) ∧
    ApplyLinearImpulseToCenter runtime ⟨[]⟩ [.hostObject (.vec2 ⟨1, 0⟩), .bool true]
      = (.ok .undefined, ⟨[.ApplyLinearImpulseToCenter ⟨1, 0⟩ true]⟩) :=
  ⟨rfl, rfl, rfl, rfl⟩

end JSIBox2dBody

namespace JSIBox2dBody

/-- C7, as stated, fails: `CreateFixture` called with a shape host object and a density
number throws "Unsupported shape type" and makes no engine call. -/
theorem CreateFixture_shape_form_fails :
    CreateFixture ⟨[]⟩ [.hostObject (.polygonShape 0), .number 1]
      = (.error (.jsError "Unsupported shape type"), ⟨[]⟩) ∧
    CreateFixture ⟨[]⟩ [.hostObject (.circleShape 0), .number 1]
      = (.error (.jsError "Unsupported shape type"), ⟨[]⟩) :=
  ⟨rfl, rfl⟩

/-- C7, amended: the two forms are two exported functions.  `CreateFixture` called with a
FixtureDef host object makes the one engine call creating a fixture on the body from
that definition and returns undefined; `CreateFixture2` called with any shape host
object (polygon or circle) and a density number makes the one engine call creating a
fixture from that shape and the density narrowed to the engine scalar, and returns
undefined.  `CreateFixture` called with a shape host object fails with a script-visible
error and makes no engine call. -/
theorem CreateFixture_forms (self : b2Body) (rest : List Value) :
    (∀ d : b2FixtureDef,
      CreateFixture self (.hostObject (.fixtureDef d) :: rest)
        = (.ok .undefined, self.call (.CreateFixture d))) ∧
    (∀ (id : Nat) (density : Number),
      CreateFixture2 self (.hostObject (.polygonShape id) :: .number density :: rest)
        = (.ok .undefined,
            self.call (.CreateFixtureFromShape (.polygon id) (toFloat density)))) ∧
    (∀ (id : Nat) (density : Number),
      CreateFixture2 self (.hostObject (.circleShape id) :: .number density :: rest)
        = (.ok .undefined,
            self.call (.CreateFixtureFromShape (.circle id) (toFloat density)))) ∧
    (∀ id : Nat,
      CreateFixture self (.hostObject (.polygonShape id) :: rest)
        = (.error (.jsError "Unsupported shape type"), self)) ∧
    (∀ id : Nat,
      CreateFixture self (.hostObject (.circleShape id) :: rest)
        = (.error (.jsError "Unsupported shape type"), self)) :=
  ⟨fun _ => rfl, fun _ _ => rfl, fun _ _ => rfl, fun _ => rfl, fun _ => rfl⟩

end JSIBox2dBody

namespace JSIBox2dWorld

/-- C8: `SetContactListener` is a no-op for every argument that is not a JS
contact-listener host object (a non-object, a plain object, an array, a function or
another kind of host object): it returns undefined, and the world is exactly as before,
that is, the stored listener reference, the listener registered with the engine and the
engine call log are unchanged. -/
theorem SetContactListener_other (self : JSIBox2dWorld) (v : Value) (rest : List Value)
    (h : ∀ l, v ≠ .hostObject (.jsContactListener l)) :
    SetContactListener self (v :: rest) = (.ok .undefined, self) := by
  cases v with
  | hostObject o =>
    cases o <;> first | exact absurd rfl (h _) | rfl
  | _ => rfl

/-- Witness for C8: a number, a plain object and a BodyDef host object, on a world
whose listener is installed. -/
theorem SetContactListener_other_witness :
    (∀ l, Value.number 3 ≠ .hostObject (.jsContactListener l)) ∧
    SetContactListener ⟨⟨⟨0, -10⟩, [.SetContactListener 4], some 4⟩, some 4⟩ [.number 3]
      = (.ok .undefined, ⟨⟨⟨0, -10⟩, [.SetContactListener 4], some 4⟩, some 4⟩) ∧
    SetContactListener ⟨⟨⟨0, -10⟩, [.SetContactListener 4], some 4⟩, some 4⟩ [.object []]
      = (.ok .undefined, ⟨⟨⟨0, -10⟩, [.SetContactListener 4], some 4⟩, some 4⟩) ∧
    SetContactListener ⟨⟨⟨0, -10⟩, [.SetContactListener 4], some 4⟩, some 4⟩
        [.hostObject (.bodyDef 0)]
      = (.ok .undefined, ⟨⟨⟨0, -10⟩, [.SetContactListener 4], some 4⟩, some 4⟩) :=
  ⟨(fun _ h => by cases h),
    SetContactListener_other _ (.number 3) [] (fun _ h => by cases h),
    SetContactListener_other _ (.object []) [] (fun _ h => by cases h),
    SetContactListener_other _ (.hostObject (.bodyDef 0)) [] (fun _ h => by cases h)⟩

end JSIBox2dWorld

namespace JSIBox2dWorld

/-- One `SetContactListener` call, whatever its arguments, keeps the stored listener
reference and the listener registered with the engine equal. -/
theorem SetContactListener_keeps_sync (self : JSIBox2dWorld) (arguments : List Value)
    (h : self.contactListener = self.world.m_contactListener) :
    (SetContactListener self arguments).2.contactListener
      = (SetContactListener self arguments).2.world.m_contactListener := by
  unfold SetContactListener
  cases arg arguments 0 with
  | error e => exact h
  | ok a0 =>
    cases a0 with
    | hostObject o => cases o <;> first | exact h | rfl
    | _ => exact h

/-- Any sequence of `SetContactListener` calls keeps the stored listener reference and
the listener registered with the engine equal. -/
theorem afterSetContactListenerCalls_sync (calls : List (List Value)) :
    ∀ self : JSIBox2dWorld, self.contactListener = self.world.m_contactListener →
      (self.afterSetContactListenerCalls calls).contactListener
        = (self.afterSetContactListenerCalls calls).world.m_contactListener := by
  induction calls with
  | nil => intro self h; exact h
  | cons arguments more ih =>
    intro self h
    exact ih _ (SetContactListener_keeps_sync self arguments h)

/-- C9: listener replacement.  After `SetContactListener(A)` followed by
`SetContactListener(B)`, for listener host objects A and B, the world's stored listener
reference and the listener registered with the engine are both the native listener of B
(and so not that of A, when the two differ); every contact event the engine raises
afterwards is delivered to the native listener of B only, so every script call it
causes goes to one of the four callables of B.  After any sequence of
`SetContactListener` calls on a freshly constructed world, with whatever arguments, the
stored reference, when set, is the listener registered with the engine. -/
theorem SetContactListener_replaces (self : JSIBox2dWorld)
    (A B : JSIBox2dJSContactListener) (restA restB : List Value) :
    ((SetContactListener
        (SetContactListener self (.hostObject (.jsContactListener A) :: restA)).2
        (.hostObject (.jsContactListener B) :: restB)).2.contactListener
      = some B.getNativeListener) ∧
    ((SetContactListener
        (SetContactListener self (.hostObject (.jsContactListener A) :: restA)).2
        (.hostObject (.jsContactListener B) :: restB)).2.world.m_contactListener
      = some B.getNativeListener) ∧
    (A.getNativeListener ≠ B.getNativeListener →
      (SetContactListener
          (SetContactListener self (.hostObject (.jsContactListener A) :: restA)).2
          (.hostObject (.jsContactListener B) :: restB)).2.contactListener
        ≠ some A.getNativeListener ∧
      (SetContactListener
          (SetContactListener self (.hostObject (.jsContactListener A) :: restA)).2
          (.hostObject (.jsContactListener B) :: restB)).2.world.m_contactListener
        ≠ some A.getNativeListener) ∧
    (∀ (heap : ListenerHeap) (event : ContactEvent),
      (SetContactListener
          (SetContactListener self (.hostObject (.jsContactListener A) :: restA)).2
          (.hostObject (.jsContactListener B) :: restB)).2.world.raise heap event
        = (heap B.getNativeListener).deliver event) ∧
    (∀ (heap : ListenerHeap) (event : ContactEvent) (made : List ScriptCall),
      (SetContactListener
          (SetContactListener self (.hostObject (.jsContactListener A) :: restA)).2
          (.hostObject (.jsContactListener B) :: restB)).2.world.raise heap event
        = .ok made →
      ∀ c ∈ made, some c.callee ∈
        [(heap B.getNativeListener).beginContactCb, (heap B.getNativeListener).endContactCb,
         (heap B.getNativeListener).preSolveCb, (heap B.getNativeListener).postSolveCb]) ∧
    (∀ (gravity : b2Vec2) (calls : List (List Value)) (l : ListenerRef),
      ((ctor gravity).afterSetContactListenerCalls calls).contactListener = some l →
      ((ctor gravity).afterSetContactListenerCalls calls).world.m_contactListener
        = some l) := by
  refine ⟨rfl, rfl, fun hne => ⟨?_, ?_⟩, fun heap event => rfl, ?_, ?_⟩
  · intro h
    exact hne (Option.some.inj h).symm
  · intro h
    exact hne (Option.some.inj h).symm
  · intro heap event made h c hc
    have h2 : (heap B.getNativeListener).deliver event = .ok made := h
    generalize heap B.getNativeListener = nl at h2
    obtain ⟨b, e, p, q⟩ := nl
    cases event with
    | BeginContact contact =>
      cases b <;>
        simp_all [JSIBox2dContactListener.deliver, JSIBox2dContactListener.BeginContact]
      all_goals (subst h2; simp_all)
    | EndContact contact =>
      cases e <;>
        simp_all [JSIBox2dContactListener.deliver, JSIBox2dContactListener.EndContact]
      all_goals (subst h2; simp_all)
    | PreSolve contact oldManifold =>
      cases p <;>
        simp_all [JSIBox2dContactListener.deliver, JSIBox2dContactListener.PreSolve]
      all_goals (subst h2; simp_all)
    | PostSolve contact impulse =>
      cases q with
      | none =>
        simp_all [JSIBox2dContactListener.deliver, JSIBox2dContactListener.PostSolve]
      | some cb =>
        simp only [JSIBox2dContactListener.deliver, JSIBox2dContactListener.PostSolve,
          bind, Except.bind] at h2
        cases he : JSIBox2dContactListener.impulseEntries impulse with
        | error err => simp [he] at h2
        | ok entries =>
          simp [he, pure, Except.pure] at h2
          subst h2
          simp_all
  · intro gravity calls l h
    rw [← afterSetContactListenerCalls_sync calls (ctor gravity) rfl]
    exact h

end JSIBox2dWorld

namespace JSIBox2dWorld

/-- Witness for C9: listeners at addresses 1 and 2 installed in turn on a fresh world;
a `BeginContact` event then calls the callable of the second listener only. -/
theorem SetContactListener_replaces_witness :
    (JSIBox2dJSContactListener.mk 1).getNativeListener
      ≠ (JSIBox2dJSContactListener.mk 2).getNativeListener ∧
    (SetContactListener
        (SetContactListener (ctor ⟨0, -10⟩) [.hostObject (.jsContactListener ⟨1⟩)]).2
        [.hostObject (.jsContactListener ⟨2⟩)]).2.contactListener = some 2 ∧
    (SetContactListener
        (SetContactListener (ctor ⟨0, -10⟩) [.hostObject (.jsContactListener ⟨1⟩)]).2
        [.hostObject (.jsContactListener ⟨2⟩)]).2.world.m_contactListener = some 2 ∧
    (SetContactListener
        (SetContactListener (ctor ⟨0, -10⟩) [.hostObject (.jsContactListener ⟨1⟩)]).2
        [.hostObject (.jsContactListener ⟨2⟩)]).2.contactListener ≠ some 1 ∧
    (SetContactListener
        (SetContactListener (ctor ⟨0, -10⟩) [.hostObject (.jsContactListener ⟨1⟩)]).2
        [.hostObject (.jsContactListener ⟨2⟩)]).2.world.raise
        (fun r => if r = 1 then ⟨some 10, none, none, none⟩ else ⟨some 20, none, none, none⟩)
        (.BeginContact 0)
      = .ok [⟨20, [.hostObject (.contact 0)]⟩] :=
  ⟨by decide,
    (SetContactListener_replaces (ctor ⟨0, -10⟩) ⟨1⟩ ⟨2⟩ [] []).1,
    (SetContactListener_replaces (ctor ⟨0, -10⟩) ⟨1⟩ ⟨2⟩ [] []).2.1,
    ((SetContactListener_replaces (ctor ⟨0, -10⟩) ⟨1⟩ ⟨2⟩ [] []).2.2.1 (by decide)).1,
    (SetContactListener_replaces (ctor ⟨0, -10⟩) ⟨1⟩ ⟨2⟩ [] []).2.2.2.1
      (fun r => if r = 1 then ⟨some 10, none, none, none⟩ else ⟨some 20, none, none, none⟩)
      (.BeginContact 0)⟩

end JSIBox2dWorld

namespace JSIBox2dJSContactListener

/-- C10: for each of the four properties `BeginContact`, `EndContact`, `PreSolve` and
`PostSolve`, assigning a value that is not a function (a non-object, or an object that
is not callable) raises nothing and leaves the native listener, all four stored
callables, exactly as it was, a callable assigned earlier to that same property
included; assigning a function stores it in the slot of that property and leaves the
other three slots as they were. -/
theorem set_property (nativeListener : JSIBox2dContactListener) (value : Value)
    (func : FunctionId) (h : ∀ f, value ≠ .function f) :
    set_BeginContact nativeListener value = (.ok (), nativeListener) ∧
    set_EndContact nativeListener value = (.ok (), nativeListener) ∧
    set_PreSolve nativeListener value = (.ok (), nativeListener) ∧
    set_PostSolve nativeListener value = (.ok (), nativeListener) ∧
    set_BeginContact nativeListener (.function func)
      = (.ok (), ⟨some func, nativeListener.endContactCb, nativeListener.preSolveCb,
          nativeListener.postSolveCb⟩) ∧
    set_EndContact nativeListener (.function func)
      = (.ok (), ⟨nativeListener.beginContactCb, some func, nativeListener.preSolveCb,
          nativeListener.postSolveCb⟩) ∧
    set_PreSolve nativeListener (.function func)
      = (.ok (), ⟨nativeListener.beginContactCb, nativeListener.endContactCb, some func,
          nativeListener.postSolveCb⟩) ∧
    set_PostSolve nativeListener (.function func)
      = (.ok (), ⟨nativeListener.beginContactCb, nativeListener.endContactCb,
          nativeListener.preSolveCb, some func⟩) := by
  refine ⟨?_, ?_, ?_, ?_, rfl, rfl, rfl, rfl⟩ <;>
    (cases value <;> first | exact absurd rfl (h _) | rfl)

/-- Witness for C10: on a listener whose `BeginContact` callable is function 7, assigning
the number 1 or a plain object to `BeginContact` keeps function 7, and assigning
function 9 to `EndContact` fills that slot only. -/
theorem set_property_witness :
    (∀ f, Value.number 1 ≠ .function f) ∧
    set_BeginContact ⟨some 7, none, none, none⟩ (.number 1)
      = (.ok (), ⟨some 7, none, none, none⟩) ∧
    set_BeginContact ⟨some 7, none, none, none⟩ (.object [])
      = (.ok (), ⟨some 7, none, none, none⟩) ∧
    set_EndContact ⟨some 7, none, none, none⟩ (.function 9)
      = (.ok (), ⟨some 7, some 9, none, none⟩) :=
  ⟨(fun _ h => by cases h),
    (set_property ⟨some 7, none, none, none⟩ (.number 1) 9 (fun _ h => by cases h)).1,
    (set_property ⟨some 7, none, none, none⟩ (.object []) 9 (fun _ h => by cases h)).1,
    (set_property ⟨some 7, none, none, none⟩ (.number 1) 9
      (fun _ h => by cases h)).2.2.2.2.2.1⟩

end JSIBox2dJSContactListener

/-- A monadic map whose function succeeds on every element returns the plain map. -/
theorem Result.mapM_ok {α β : Type} (f : α → Result β) (g : α → β) (xs : List α)
    (h : ∀ x ∈ xs, f x = .ok (g x)) : xs.mapM f = .ok (xs.map g) := by
  induction xs with
  | nil => rfl
  | cons a l ih =>
    rw [List.mapM_cons, h a (List.mem_cons_self _ _),
      ih (fun x hx => h x (List.mem_cons_of_mem _ hx))]
    rfl

namespace JSIBox2dContactListener

/-- With `count` within the capacity of the arrays, the loop of `PostSolve` reads in
bounds and yields, for each index below `count`, the pair of entries at that index. -/
theorem impulseEntries_ok (impulse : b2ContactImpulse) (h : impulse.inCapacity) :
    impulseEntries impulse = .ok ((List.range impulse.count).map fun i =>
      (Value.number (toDouble (impulse.normalImpulses.getD i 0)),
        Value.number (toDouble (impulse.tangentImpulses.getD i 0)))) := by
  unfold impulseEntries
  apply Result.mapM_ok
  intro i hi
  have hi' : i < impulse.count := List.mem_range.mp hi
  have h1 : i < impulse.normalImpulses.length := lt_of_lt_of_le hi' h.1
  have h2 : i < impulse.tangentImpulses.length := lt_of_lt_of_le hi' h.2
  simp [List.getD, h1, h2]

/-- Delivery of one event: the callable of the kind of the event, when set, is called
once with the contact wrapper as first argument; when not set, nothing is called. -/
theorem deliver_one (self : JSIBox2dContactListener) (event : ContactEvent)
    (h : ∀ contact impulse, event = .PostSolve contact impulse → impulse.inCapacity) :
    ∃ made, self.deliver event = .ok made ∧
      made.map (fun c => (c.callee, c.arguments.head?))
        = (match self.callableFor event with
            | some cb => [(cb, some (Value.hostObject (.contact event.contact)))]
            | none => []) := by
  obtain ⟨b, e, p, q⟩ := self
  cases event with
  | BeginContact contact =>
    cases b <;> exact ⟨_, rfl, rfl⟩
  | EndContact contact =>
    cases e <;> exact ⟨_, rfl, rfl⟩
  | PreSolve contact oldManifold =>
    cases p <;> exact ⟨_, rfl, rfl⟩
  | PostSolve contact impulse =>
    cases q with
    | none => exact ⟨_, rfl, rfl⟩
    | some cb =>
      have he := impulseEntries_ok impulse (h _ _ rfl)
      have hd : deliver ⟨b, e, p, some cb⟩ (.PostSolve contact impulse)
          = .ok [⟨cb, [.hostObject (.contact contact), .object
              [("normalImpulses", .array (((List.range impulse.count).map fun i =>
                  (Value.number (toDouble (impulse.normalImpulses.getD i 0)),
                    Value.number (toDouble (impulse.tangentImpulses.getD i 0)))).map Prod.fst)),
               ("tangentImpulses", .array (((List.range impulse.count).map fun i =>
                  (Value.number (toDouble (impulse.normalImpulses.getD i 0)),
                    Value.number (toDouble (impulse.tangentImpulses.getD i 0)))).map Prod.snd)),
               ("count", .number impulse.count)]]⟩] := by
        simp only [deliver, PostSolve, he, bind, Except.bind, pure, Except.pure]
      exact ⟨_, hd, rfl⟩

/-- C11: for every sequence of contact events delivered to a listener whose callables
are fixed (each `PostSolve` impulse having its count within the capacity of its
arrays), delivery succeeds and the script calls made are exactly the events whose
matching callable is set, in the same order, one call per event, each to the callable of
the kind of the event and with the contact of that event as first argument.  An event
whose callable is not set makes no script call and raises no error. -/
theorem deliverAll_in_order (self : JSIBox2dContactListener) (events : List ContactEvent)
    (h : ∀ contact impulse, .PostSolve contact impulse ∈ events → impulse.inCapacity) :
    (∃ made, self.deliverAll events = .ok made ∧
      made.map (fun c => (c.callee, c.arguments.head?))
        = events.filterMap (fun event => (self.callableFor event).map
            (fun cb => (cb, some (Value.hostObject (.contact event.contact)))))) ∧
    (∀ event, self.callableFor event = none → self.deliver event = .ok []) := by
  constructor
  · induction events with
    | nil => exact ⟨[], rfl, rfl⟩
    | cons event more ih =>
      obtain ⟨later, hl, hlm⟩ := ih (fun c i hm => h c i (List.mem_cons_of_mem _ hm))
      obtain ⟨first, hf, hfm⟩ :=
        deliver_one self event (fun c i he => h c i (by rw [he]; exact List.mem_cons_self _ _))
      refine ⟨first ++ later, ?_, ?_⟩
      · simp only [deliverAll, hf, hl, bind, Except.bind, pure, Except.pure]
      · rw [List.map_append, hfm, hlm]
        cases hc : self.callableFor event <;> simp [List.filterMap_cons, hc]
  · intro event hnone
    obtain ⟨b, e, p, q⟩ := self
    cases event <;> simp_all [callableFor, deliver, BeginContact, EndContact, PreSolve,
      PostSolve]

/-- Witness for C11: a listener with only `BeginContact` (function 10) and `PostSolve`
(function 40) set receives begin, pre-solve, post-solve, end, begin; it calls 10, 40,
10, in that order. -/
theorem deliverAll_in_order_witness :
    (∀ contact impulse,
      ContactEvent.PostSolve contact impulse ∈
        [ContactEvent.BeginContact 1, .PreSolve 1 0, .PostSolve 1 ⟨[5, 0], [2, 0], 1⟩,
          .EndContact 1, .BeginContact 2] → impulse.inCapacity) ∧
    ∃ made,
      deliverAll ⟨some 10, none, none, some 40⟩
        [.BeginContact 1, .PreSolve 1 0, .PostSolve 1 ⟨[5, 0], [2, 0], 1⟩,
          .EndContact 1, .BeginContact 2] = .ok made ∧
      made.map (fun c => (c.callee, c.arguments.head?))
        = [(10, some (Value.hostObject (.contact 1))),
           (40, some (Value.hostObject (.contact 1))),
           (10, some (Value.hostObject (.contact 2)))] :=
  have hcap : ∀ contact impulse,
      ContactEvent.PostSolve contact impulse ∈
        [ContactEvent.BeginContact 1, .PreSolve 1 0, .PostSolve 1 ⟨[5, 0], [2, 0], 1⟩,
          .EndContact 1, .BeginContact 2] → impulse.inCapacity := by
    intro contact impulse hm
    simp only [List.mem_cons, List.mem_singleton, List.not_mem_nil, or_false,
      ContactEvent.PostSolve.injEq, false_or, reduceCtorEq] at hm
    obtain ⟨_, rfl⟩ := hm
    decide
  ⟨hcap, (deliverAll_in_order ⟨some 10, none, none, some 40⟩ _ hcap).1⟩

end JSIBox2dContactListener

namespace JSIBox2dContactListener

/-- C12: when `PostSolve` is dispatched (its callable is set and the impulse count is
within the capacity of the arrays), the one script call gets the contact wrapper and, as
second argument, a plain object with the properties `normalImpulses`, `tangentImpulses`
and `count`: `count` is the count of the engine impulse, both arrays have exactly
`count` entries, and entry `i` is the number widened from the `i`-th normal
(respectively tangent) impulse of the engine struct, for every `i < count`. -/
theorem PostSolve_impulse_object (self : JSIBox2dContactListener) (cb : FunctionId)
    (contact : Nat) (impulse : b2ContactImpulse)
    (hcb : self.postSolveCb = some cb) (hcap : impulse.inCapacity) :
    ∃ normals tangents : List Value,
      self.PostSolve contact impulse
        = .ok [⟨cb, [.hostObject (.contact contact),
            .object [("normalImpulses", .array normals),
                     ("tangentImpulses", .array tangents),
                     ("count", .number impulse.count)]]⟩] ∧
      normals.length = impulse.count ∧
      tangents.length = impulse.count ∧
      ∀ i, i < impulse.count →
        ∃ n t, impulse.normalImpulses.get? i = some n ∧
          impulse.tangentImpulses.get? i = some t ∧
          normals.get? i = some (.number (toDouble n)) ∧
          tangents.get? i = some (.number (toDouble t)) := by
  have he := impulseEntries_ok impulse hcap
  refine ⟨((List.range impulse.count).map fun i =>
      (Value.number (toDouble (impulse.normalImpulses.getD i 0)),
        Value.number (toDouble (impulse.tangentImpulses.getD i 0)))).map Prod.fst,
    ((List.range impulse.count).map fun i =>
      (Value.number (toDouble (impulse.normalImpulses.getD i 0)),
        Value.number (toDouble (impulse.tangentImpulses.getD i 0)))).map Prod.snd,
    ?_, by simp, by simp, ?_⟩
  · simp only [PostSolve, hcb, he, bind, Except.bind, pure, Except.pure]
  · intro i hi
    have h1 : i < impulse.normalImpulses.length := lt_of_lt_of_le hi hcap.1
    have h2 : i < impulse.tangentImpulses.length := lt_of_lt_of_le hi hcap.2
    refine ⟨impulse.normalImpulses[i], impulse.tangentImpulses[i], ?_, ?_, ?_, ?_⟩ <;>
      simp [List.getD, h1, h2, hi]

/-- Witness for C12: an impulse with one point in use, normal impulse 5 and tangent
impulse 2, sent to a listener whose `PostSolve` callable is function 40. -/
theorem PostSolve_impulse_object_witness :
    (JSIBox2dContactListener.mk none none none (some 40)).postSolveCb = some 40 ∧
    (b2ContactImpulse.mk [5, 0] [2, 0] 1).inCapacity ∧
    ∃ normals tangents : List Value,
      PostSolve ⟨none, none, none, some 40⟩ 7 ⟨[5, 0], [2, 0], 1⟩
        = .ok [⟨40, [.hostObject (.contact 7),
            .object [("normalImpulses", .array normals),
                     ("tangentImpulses", .array tangents),
                     ("count", .number ((b2ContactImpulse.mk [5, 0] [2, 0] 1).count : Nat))]]⟩] ∧
      normals.length = (b2ContactImpulse.mk [5, 0] [2, 0] 1).count ∧
      tangents.length = (b2ContactImpulse.mk [5, 0] [2, 0] 1).count ∧
      ∀ i, i < (b2ContactImpulse.mk [5, 0] [2, 0] 1).count →
        ∃ n t, (b2ContactImpulse.mk [5, 0] [2, 0] 1).normalImpulses.get? i = some n ∧
          (b2ContactImpulse.mk [5, 0] [2, 0] 1).tangentImpulses.get? i = some t ∧
          normals.get? i = some (.number (toDouble n)) ∧
          tangents.get? i = some (.number (toDouble t)) :=
  ⟨rfl, by decide,
    PostSolve_impulse_object ⟨none, none, none, some 40⟩ 40 7 ⟨[5, 0], [2, 0], 1⟩ rfl
      (by decide)⟩

end JSIBox2dContactListener

namespace JSRayCastCallback

/-- C13: `ReportFixture` of the ray-cast adapter calls the script function and returns to
the engine the returned number, narrowed to the engine scalar, whenever the script
function returns a number (so -1, 0, 1 and fractions pass through as the control
value), and returns 1 for every return value that is not a number. -/
theorem ReportFixture_control (script : Script) (callback : FunctionId)
    (report : RayCastReport) :
    (∀ n : Number, script callback (callArguments report) = .number n →
      ReportFixture script callback report = .ok (toFloat n)) ∧
    ((script callback (callArguments report)).isNumber = false →
      ReportFixture script callback report = .ok 1) := by
  constructor
  · intro n hn
    simp [ReportFixture, hn, Value.isNumber, asNumber, bind, Except.bind, pure, Except.pure]
  · intro hn
    simp [ReportFixture, hn, pure, Except.pure]

/-- Witness for C13: script functions returning -1, 0, 1, a half, undefined, a boolean,
a string and an object. -/
theorem ReportFixture_control_witness :
    ReportFixture (fun _ _ => .number (-1)) 3 ⟨0, ⟨0, 0⟩, ⟨0, 1⟩, 1 / 2⟩ = .ok (toFloat (-1)) ∧
    ReportFixture (fun _ _ => .number 0) 3 ⟨0, ⟨0, 0⟩, ⟨0, 1⟩, 1 / 2⟩ = .ok (toFloat 0) ∧
    ReportFixture (fun _ _ => .number 1) 3 ⟨0, ⟨0, 0⟩, ⟨0, 1⟩, 1 / 2⟩ = .ok (toFloat 1) ∧
    ReportFixture (fun _ _ => .number (1 / 2)) 3 ⟨0, ⟨0, 0⟩, ⟨0, 1⟩, 1 / 2⟩
      = .ok (toFloat (1 / 2)) ∧
    ReportFixture (fun _ _ => .undefined) 3 ⟨0, ⟨0, 0⟩, ⟨0, 1⟩, 1 / 2⟩ = .ok 1 ∧
    ReportFixture (fun _ _ => .bool false) 3 ⟨0, ⟨0, 0⟩, ⟨0, 1⟩, 1 / 2⟩ = .ok 1 ∧
    ReportFixture (fun _ _ => .string "0") 3 ⟨0, ⟨0, 0⟩, ⟨0, 1⟩, 1 / 2⟩ = .ok 1 ∧
    ReportFixture (fun _ _ => .object []) 3 ⟨0, ⟨0, 0⟩, ⟨0, 1⟩, 1 / 2⟩ = .ok 1 :=
  ⟨(ReportFixture_control (fun _ _ => .number (-1)) 3 _).1 (-1) rfl,
    (ReportFixture_control (fun _ _ => .number 0) 3 _).1 0 rfl,
    (ReportFixture_control (fun _ _ => .number 1) 3 _).1 1 rfl,
    (ReportFixture_control (fun _ _ => .number (1 / 2)) 3 _).1 (1 / 2) rfl,
    (ReportFixture_control (fun _ _ => .undefined) 3 _).2 rfl,
    (ReportFixture_control (fun _ _ => .bool false) 3 _).2 rfl,
    (ReportFixture_control (fun _ _ => .string "0") 3 _).2 rfl,
    (ReportFixture_control (fun _ _ => .object []) 3 _).2 rfl⟩

end JSRayCastCallback

namespace JSQueryCallback

/-- C14: `ReportFixture` of the region-query adapter calls the script function and
returns to the engine exactly the returned value when it is a boolean, and true
(continue) for every return value that is not a boolean, the numbers 0 and 1 and
undefined included. -/
theorem ReportFixture_continue (runtime : Runtime) (script : Script)
    (callback : FunctionId) (fixture : Nat) :
    (∀ b : Bool, script callback (callArguments fixture) = .bool b →
      ReportFixture runtime script callback fixture = .ok b) ∧
    ((script callback (callArguments fixture)).isBool = false →
      ReportFixture runtime script callback fixture = .ok true) := by
  constructor
  · intro b hb
    simp [ReportFixture, hb, Value.isBool, getBool]
  · intro hb
    simp [ReportFixture, hb, pure, Except.pure]

/-- Witness for C14: script functions returning false, true, 0, 1 and undefined. -/
theorem ReportFixture_continue_witness :
    ReportFixture Runtime.checked (fun _ _ => .bool false) 3 0 = .ok false ∧
    ReportFixture Runtime.checked (fun _ _ => .bool true) 3 0 = .ok true ∧
    ReportFixture Runtime.checked (fun _ _ => .number 0) 3 0 = .ok true ∧
    ReportFixture Runtime.checked (fun _ _ => .number 1) 3 0 = .ok true ∧
    ReportFixture Runtime.checked (fun _ _ => .undefined) 3 0 = .ok true :=
  ⟨(ReportFixture_continue Runtime.checked (fun _ _ => .bool false) 3 0).1 false rfl,
    (ReportFixture_continue Runtime.checked (fun _ _ => .bool true) 3 0).1 true rfl,
    (ReportFixture_continue Runtime.checked (fun _ _ => .number 0) 3 0).2 rfl,
    (ReportFixture_continue Runtime.checked (fun _ _ => .number 1) 3 0).2 rfl,
    (ReportFixture_continue Runtime.checked (fun _ _ => .undefined) 3 0).2 rfl⟩

end JSQueryCallback

namespace JSIBox2dWorld

/-- The conversion of a vector either succeeds or fails with a script-visible error. -/
theorem fromValue_ok_or_jsError (v : Value) :
    (∃ p, JSIBox2dVec2.fromValue v = .ok p) ∨
    JSIBox2dVec2.fromValue v = .error (.jsError "Value is not a Vec2") := by
  unfold JSIBox2dVec2.fromValue
  split
  · exact Or.inl ⟨_, rfl⟩
  · split
    · exact Or.inl ⟨_, rfl⟩
    · exact Or.inr rfl
  · exact Or.inr rfl

end JSIBox2dWorld

namespace JSIBox2dWorld

end JSIBox2dWorld

/-- C16: a value that is not a boolean, passed where a boolean is expected, is not
rejected.  Every boolean site reads its argument with `getBool`, which asserts and then
reads without a check.  No such call ever fails with a script-visible error, whatever the
value; called with the number 1, as in `SetAwake(1)` or `enableLimit = 1`, a build with
assertions stops at the assertion with the receiver as it was, and a build without them
returns normally after handing the engine, or writing into the definition, whatever
boolean the unchecked read yields.  On a build without assertions whose stale read yields
false, `SetAwake(1)` puts the body to sleep and `enableLimit = 1` clears the flag.  A
boolean given to a flag setter is forwarded as it is. -/
theorem boolean_argument_unchecked (runtime : Runtime) (body : b2Body)
    (fixture : b2Fixture) (contact : b2Contact) (joint : b2Joint)
    (jointDef : b2RevoluteJointDef) (force point : b2Vec2) (n : Number)
    (rest : List Value) :
    (∀ (v : Value) (message : String),
      (JSIBox2dBody.SetAwake runtime body (v :: rest)).1 ≠ .error (.jsError message) ∧
      (JSIBox2dBody.SetEnabled runtime body (v :: rest)).1 ≠ .error (.jsError message) ∧
      (JSIBox2dBody.SetBullet runtime body (v :: rest)).1 ≠ .error (.jsError message) ∧
      (JSIBox2dBody.SetFixedRotation runtime body (v :: rest)).1 ≠ .error (.jsError message) ∧
      (JSIBox2dBody.ApplyForceToCenter runtime body
          (.hostObject (.vec2 force) :: v :: rest)).1
        ≠ .error (.jsError message) ∧
      (JSIBox2dBody.ApplyLinearImpulseToCenter runtime body
          (.hostObject (.vec2 force) :: v :: rest)).1
        ≠ .error (.jsError message) ∧
      (JSIBox2dBody.ApplyForce runtime body
          (.hostObject (.vec2 force) :: .hostObject (.vec2 point) :: v :: rest)).1
        ≠ .error (.jsError message) ∧
      (JSIBox2dBody.ApplyLinearImpulse runtime body
          (.hostObject (.vec2 force) :: .hostObject (.vec2 point) :: v :: rest)).1
        ≠ .error (.jsError message) ∧
      (JSIBox2dBody.ApplyTorque runtime body
          (.number n :: v :: rest)).1
        ≠ .error (.jsError message) ∧
      (JSIBox2dBody.ApplyAngularImpulse runtime body
          (.number n :: v :: rest)).1
        ≠ .error (.jsError message) ∧
      (JSIBox2dFixture.SetSensor runtime fixture (v :: rest)).1 ≠ .error (.jsError message) ∧
      (JSIBox2dContact.SetEnabled runtime contact (v :: rest)).1 ≠ .error (.jsError message) ∧
      (JSIBox2dJoint.EnableMotor runtime joint (v :: rest)).1 ≠ .error (.jsError message) ∧
      (JSIBox2dRevoluteJointDef.set_enableLimit runtime jointDef v).1 ≠ .error (.jsError message) ∧
      (JSIBox2dRevoluteJointDef.set_enableMotor runtime jointDef v).1 ≠ .error (.jsError message)) ∧
    (JSIBox2dBody.SetAwake runtime body (.number 1 :: rest)
        = (if runtime.assertions then (.error .assertion, body)
          else (.ok .undefined,
            body.call (.SetAwake (runtime.uncheckedBool (.number 1))))) ∧
      JSIBox2dBody.SetEnabled runtime body (.number 1 :: rest)
        = (if runtime.assertions then (.error .assertion, body)
          else (.ok .undefined,
            body.call (.SetEnabled (runtime.uncheckedBool (.number 1))))) ∧
      JSIBox2dBody.SetBullet runtime body (.number 1 :: rest)
        = (if runtime.assertions then (.error .assertion, body)
          else (.ok .undefined,
            body.call (.SetBullet (runtime.uncheckedBool (.number 1))))) ∧
      JSIBox2dBody.SetFixedRotation runtime body (.number 1 :: rest)
        = (if runtime.assertions then (.error .assertion, body)
          else (.ok .undefined,
            body.call (.SetFixedRotation (runtime.uncheckedBool (.number 1))))) ∧
      JSIBox2dBody.ApplyForceToCenter runtime body (.hostObject (.vec2 force) :: .number 1 :: rest)
        = (if runtime.assertions then (.error .assertion, body)
          else (.ok .undefined,
            body.call (.ApplyForceToCenter force (runtime.uncheckedBool (.number 1))))) ∧
      JSIBox2dBody.ApplyLinearImpulseToCenter runtime body
          (.hostObject (.vec2 force) :: .number 1 :: rest)
        = (if runtime.assertions then (.error .assertion, body)
          else (.ok .undefined,
            body.call (.ApplyLinearImpulseToCenter force (runtime.uncheckedBool (.number 1))))) ∧
      JSIBox2dBody.ApplyForce runtime body
          (.hostObject (.vec2 force) :: .hostObject (.vec2 point) :: .number 1 :: rest)
        = (if runtime.assertions then (.error .assertion, body)
          else (.ok .undefined,
            body.call (.ApplyForce force point (runtime.uncheckedBool (.number 1))))) ∧
      JSIBox2dBody.ApplyLinearImpulse runtime body
          (.hostObject (.vec2 force) :: .hostObject (.vec2 point) :: .number 1 :: rest)
        = (if runtime.assertions then (.error .assertion, body)
          else (.ok .undefined,
            body.call (.ApplyLinearImpulse force point (runtime.uncheckedBool (.number 1))))) ∧
      JSIBox2dBody.ApplyTorque runtime body (.number n :: .number 1 :: rest)
        = (if runtime.assertions then (.error .assertion, body)
          else (.ok .undefined,
            body.call (.ApplyTorque (toFloat n) (runtime.uncheckedBool (.number 1))))) ∧
      JSIBox2dBody.ApplyAngularImpulse runtime body (.number n :: .number 1 :: rest)
        = (if runtime.assertions then (.error .assertion, body)
          else (.ok .undefined,
            body.call (.ApplyAngularImpulse (toFloat n) (runtime.uncheckedBool (.number 1))))) ∧
      JSIBox2dFixture.SetSensor runtime fixture (.number 1 :: rest)
        = (if runtime.assertions then (.error .assertion, fixture)
          else (.ok .undefined, fixture.SetSensor (runtime.uncheckedBool (.number 1)))) ∧
      JSIBox2dContact.SetEnabled runtime contact (.number 1 :: rest)
        = (if runtime.assertions then (.error .assertion, contact)
          else (.ok .undefined, contact.SetEnabled (runtime.uncheckedBool (.number 1)))) ∧
      JSIBox2dJoint.EnableMotor runtime joint (.number 1 :: rest)
        = (if runtime.assertions then (.error .assertion, joint)
          else JSIBox2dJoint.EnableMotor runtime joint
            (.bool (runtime.uncheckedBool (.number 1)) :: rest)) ∧
      JSIBox2dRevoluteJointDef.set_enableLimit runtime jointDef (.number 1)
        = (if runtime.assertions then (.error .assertion, jointDef)
          else (.ok (), { jointDef with enableLimit := runtime.uncheckedBool (.number 1) })) ∧
      JSIBox2dRevoluteJointDef.set_enableMotor runtime jointDef (.number 1)
        = (if runtime.assertions then (.error .assertion, jointDef)
          else (.ok (), { jointDef with enableMotor := runtime.uncheckedBool (.number 1) }))) ∧
    (JSIBox2dBody.SetAwake Runtime.checked ⟨[]⟩ [.number 1] = (.error .assertion, ⟨[]⟩) ∧
      JSIBox2dBody.SetAwake Runtime.unchecked ⟨[]⟩ [.number 1]
        = (.ok .undefined, ⟨[.SetAwake false]⟩) ∧
      JSIBox2dJoint.EnableMotor Runtime.unchecked ⟨.e_revoluteJoint, true, 0, 0, []⟩
          [.number 1]
        = (.ok .undefined, ⟨.e_revoluteJoint, false, 0, 0, [.EnableMotor false]⟩) ∧
      JSIBox2dRevoluteJointDef.set_enableLimit Runtime.unchecked
          ⟨none, none, ⟨0, 0⟩, ⟨0, 0⟩, 0, true, 0, 0, false, 0, 0⟩ (.number 1)
        = (.ok (), ⟨none, none, ⟨0, 0⟩, ⟨0, 0⟩, 0, false, 0, 0, false, 0, 0⟩)) ∧
    (∀ b : Bool,
      JSIBox2dBody.SetAwake runtime body (.bool b :: rest)
        = (.ok .undefined, body.call (.SetAwake b)) ∧
      JSIBox2dBody.SetEnabled runtime body (.bool b :: rest)
        = (.ok .undefined, body.call (.SetEnabled b)) ∧
      JSIBox2dBody.SetBullet runtime body (.bool b :: rest)
        = (.ok .undefined, body.call (.SetBullet b)) ∧
      JSIBox2dBody.SetFixedRotation runtime body (.bool b :: rest)
        = (.ok .undefined, body.call (.SetFixedRotation b)) ∧
      JSIBox2dFixture.SetSensor runtime fixture (.bool b :: rest)
        = (.ok .undefined, { fixture with m_isSensor := b }) ∧
      JSIBox2dContact.SetEnabled runtime contact (.bool b :: rest)
        = (.ok .undefined, { contact with m_enabled := b }) ∧
      JSIBox2dRevoluteJointDef.set_enableLimit runtime jointDef (.bool b)
        = (.ok (), { jointDef with enableLimit := b }) ∧
      JSIBox2dRevoluteJointDef.set_enableMotor runtime jointDef (.bool b)
        = (.ok (), { jointDef with enableMotor := b })) := by
  refine ⟨fun v message => ?_, ?_, ⟨rfl, rfl, rfl, rfl⟩, fun b =>
    ⟨rfl, rfl, rfl, rfl, rfl, rfl, rfl, rfl⟩⟩
  · have hg : ∀ e, getBool runtime v = .error e → e = .assertion := by
      intro e he
      cases v <;> cases ha : runtime.assertions <;> simp_all [getBool]
    cases hb : getBool runtime v with
    | ok b =>
      refine ⟨?_, ?_, ?_, ?_, ?_, ?_, ?_, ?_, ?_, ?_, ?_, ?_, ?_, ?_, ?_⟩ <;>
      simp [JSIBox2dBody.SetAwake, JSIBox2dBody.SetEnabled, JSIBox2dBody.SetBullet,
        JSIBox2dBody.SetFixedRotation, JSIBox2dBody.ApplyForceToCenter,
        JSIBox2dBody.ApplyLinearImpulseToCenter, JSIBox2dBody.ApplyForce,
        JSIBox2dBody.ApplyLinearImpulse, JSIBox2dBody.ApplyTorque,
        JSIBox2dBody.ApplyAngularImpulse, JSIBox2dBody.toCenterArguments,
        JSIBox2dBody.atPointArguments, JSIBox2dBody.angularArguments,
        JSIBox2dFixture.SetSensor, JSIBox2dContact.SetEnabled,
        JSIBox2dRevoluteJointDef.set_enableLimit, JSIBox2dRevoluteJointDef.set_enableMotor,
        JSIBox2dVec2.fromValueGet, JSIBox2dVec2.fromValue,
        arg, asNumber, bind, Except.bind, pure, Except.pure, hb]
      unfold JSIBox2dJoint.EnableMotor
      simp only [arg, List.get?_cons_zero, bind, Except.bind, hb]
      cases joint.GetType <;> simp
    | error e =>
      have he := hg e hb
      subst he
      refine ⟨?_, ?_, ?_, ?_, ?_, ?_, ?_, ?_, ?_, ?_, ?_, ?_, ?_, ?_, ?_⟩ <;>
      simp [JSIBox2dBody.SetAwake, JSIBox2dBody.SetEnabled, JSIBox2dBody.SetBullet,
        JSIBox2dBody.SetFixedRotation, JSIBox2dBody.ApplyForceToCenter,
        JSIBox2dBody.ApplyLinearImpulseToCenter, JSIBox2dBody.ApplyForce,
        JSIBox2dBody.ApplyLinearImpulse, JSIBox2dBody.ApplyTorque,
        JSIBox2dBody.ApplyAngularImpulse, JSIBox2dBody.toCenterArguments,
        JSIBox2dBody.atPointArguments, JSIBox2dBody.angularArguments,
        JSIBox2dFixture.SetSensor, JSIBox2dContact.SetEnabled, JSIBox2dJoint.EnableMotor,
        JSIBox2dRevoluteJointDef.set_enableLimit, JSIBox2dRevoluteJointDef.set_enableMotor,
        JSIBox2dVec2.fromValueGet, JSIBox2dVec2.fromValue,
        arg, asNumber, bind, Except.bind, pure, Except.pure, hb]
  · cases ha : runtime.assertions <;>
    refine ⟨?_, ?_, ?_, ?_, ?_, ?_, ?_, ?_, ?_, ?_, ?_, ?_, ?_, ?_, ?_⟩ <;>
    simp [JSIBox2dBody.SetAwake, JSIBox2dBody.SetEnabled, JSIBox2dBody.SetBullet,
      JSIBox2dBody.SetFixedRotation, JSIBox2dBody.ApplyForceToCenter,
      JSIBox2dBody.ApplyLinearImpulseToCenter, JSIBox2dBody.ApplyForce,
      JSIBox2dBody.ApplyLinearImpulse, JSIBox2dBody.ApplyTorque,
      JSIBox2dBody.ApplyAngularImpulse, JSIBox2dBody.toCenterArguments,
      JSIBox2dBody.atPointArguments, JSIBox2dBody.angularArguments,
      JSIBox2dFixture.SetSensor, JSIBox2dContact.SetEnabled, JSIBox2dJoint.EnableMotor,
      JSIBox2dRevoluteJointDef.set_enableLimit, JSIBox2dRevoluteJointDef.set_enableMotor,
      JSIBox2dVec2.fromValueGet, JSIBox2dVec2.fromValue, b2Vec2Ptr.deref,
      arg, asNumber, getBool, bind, Except.bind, pure, Except.pure, ha]

namespace JSIBox2dBody

/-- C17: body user data round-trips.  For every body and every integer tag `n` with
`0 <= n < 2^53`, `SetUserData(n)` returns undefined and stores exactly `n` in the
pointer-sized slot of the body, and `GetUserData` called afterwards returns exactly
`n`. -/
theorem UserData_round_trip (userData : b2BodyUserData) (n : Nat) (rest arguments : List Value)
    (h : n < 2 ^ 53) :
    (SetUserData userData (.number (n : Number) :: rest)).1 = .ok .undefined ∧
    (SetUserData userData (.number (n : Number) :: rest)).2.pointer = n ∧
    GetUserData (SetUserData userData (.number (n : Number) :: rest)).2 arguments
      = .ok (.number (n : Number)) := by
  have hp : toUintptr (n : Number) = n := by
    simp [toUintptr]
    omega
  refine ⟨rfl, hp, ?_⟩
  have hd : uintptrToDouble n = (n : Number) := by
    unfold uintptrToDouble
    rw [if_pos h]
  simp [GetUserData, SetUserData, arg, asNumber, bind, Except.bind, hp, hd]

/-- Witness for C17 at the largest tag below `2^53` and, against it, the first tag that
the slot holds but the script number read back does not. -/
theorem UserData_round_trip_witness :
    9007199254740991 < 2 ^ 53 ∧
    (SetUserData ⟨0⟩ [.number ((9007199254740991 : Nat) : Number)]).2.pointer
      = 9007199254740991 ∧
    GetUserData (SetUserData ⟨0⟩ [.number ((9007199254740991 : Nat) : Number)]).2 []
      = .ok (.number ((9007199254740991 : Nat) : Number)) ∧
    uintptrToDouble (2 ^ 53 + 1) = ((2 ^ 53 : Nat) : Number) :=
  ⟨by decide,
    (UserData_round_trip ⟨0⟩ 9007199254740991 [] [] (by decide)).2.1,
    (UserData_round_trip ⟨0⟩ 9007199254740991 [] [] (by decide)).2.2,
    by decide⟩

end JSIBox2dBody

/-- C18: `GetWorldManifold` returns a host object holding a copy of the world-manifold
struct the engine computes for the contact at call time, and the point count of the
contact manifold at call time.  With the point count at most the capacity 2 of the
arrays of the struct, every index read is in bounds: the normal accessor yields the
copied normal, and the points and separations accessors each yield an array of exactly
`pointCount` entries whose `i`-th entry is the `i`-th point (respectively separation) of
the copied struct.  The accessors read the copy only, so what they yield is fixed by the
contact as it was at the call. -/
theorem GetWorldManifold_snapshot (contact : b2Contact) (arguments : List Value)
    (hp : contact.worldManifold.points.length = 2)
    (hs : contact.worldManifold.separations.length = 2)
    (hc : contact.m_manifold.pointCount ≤ 2) :
    ∃ m : JSIBox2dWorldManifold,
      JSIBox2dContact.GetWorldManifold contact arguments
        = .ok (.hostObject (.worldManifold m)) ∧
      m.manifold = contact.worldManifold ∧
      m.pointCount = contact.m_manifold.pointCount ∧
      m.get_normal [] = .ok (.object
        [("x", .number (toDouble contact.worldManifold.normal.x)),
         ("y", .number (toDouble contact.worldManifold.normal.y))]) ∧
      (∃ points : List Value,
        m.get_points [] = .ok (.array points) ∧
        points.length = contact.m_manifold.pointCount ∧
        ∀ i, i < contact.m_manifold.pointCount →
          ∃ p, contact.worldManifold.points.get? i = some p ∧
            points.get? i = some (.object
              [("x", .number (toDouble p.x)), ("y", .number (toDouble p.y))])) ∧
      (∃ separations : List Value,
        m.get_separations [] = .ok (.array separations) ∧
        separations.length = contact.m_manifold.pointCount ∧
        ∀ i, i < contact.m_manifold.pointCount →
          ∃ s, contact.worldManifold.separations.get? i = some s ∧
            separations.get? i = some (.number (toDouble s))) := by
  refine ⟨⟨contact.worldManifold, contact.m_manifold.pointCount⟩, rfl, rfl, rfl, rfl, ?_, ?_⟩
  · refine ⟨(List.range contact.m_manifold.pointCount).map fun i =>
        Value.object
          [("x", .number (toDouble (contact.worldManifold.points.getD i ⟨0, 0⟩).x)),
           ("y", .number (toDouble (contact.worldManifold.points.getD i ⟨0, 0⟩).y))],
      ?_, by simp, ?_⟩
    · simp only [JSIBox2dWorldManifold.get_points]
      rw [Result.mapM_ok _ (fun i => Value.object
          [("x", .number (toDouble (contact.worldManifold.points.getD i ⟨0, 0⟩).x)),
           ("y", .number (toDouble (contact.worldManifold.points.getD i ⟨0, 0⟩).y))])]
      · rfl
      · intro i hi
        have hi' : i < contact.worldManifold.points.length := by
          have := List.mem_range.mp hi
          omega
        simp [List.getD, List.getElem?_eq_getElem hi']
    · intro i hi
      have hi' : i < contact.worldManifold.points.length := by omega
      exact ⟨contact.worldManifold.points[i], by simp [List.getElem?_eq_getElem hi'],
        by simp [List.getD, List.getElem?_eq_getElem hi', hi]⟩
  · refine ⟨(List.range contact.m_manifold.pointCount).map fun i =>
        Value.number (toDouble (contact.worldManifold.separations.getD i 0)),
      ?_, by simp, ?_⟩
    · simp only [JSIBox2dWorldManifold.get_separations]
      rw [Result.mapM_ok _ (fun i =>
          Value.number (toDouble (contact.worldManifold.separations.getD i 0)))]
      · rfl
      · intro i hi
        have hi' : i < contact.worldManifold.separations.length := by
          have := List.mem_range.mp hi
          omega
        simp [List.getD, List.getElem?_eq_getElem hi']
    · intro i hi
      have hi' : i < contact.worldManifold.separations.length := by omega
      exact ⟨contact.worldManifold.separations[i], by simp [List.getElem?_eq_getElem hi'],
        by simp [List.getD, List.getElem?_eq_getElem hi', hi]⟩

/-- Witness for C18: a contact with one manifold point, at `(3, 4)` with separation
`-1`; a second slot of each array is unused. -/
theorem GetWorldManifold_snapshot_witness :
    (b2Contact.mk true ⟨1, ⟨0, 1⟩, ⟨0, 0⟩⟩
      ⟨⟨0, 1⟩, [⟨3, 4⟩, ⟨0, 0⟩], [-1, 0]⟩).worldManifold.points.length = 2 ∧
    (b2Contact.mk true ⟨1, ⟨0, 1⟩, ⟨0, 0⟩⟩
      ⟨⟨0, 1⟩, [⟨3, 4⟩, ⟨0, 0⟩], [-1, 0]⟩).worldManifold.separations.length = 2 ∧
    (b2Contact.mk true ⟨1, ⟨0, 1⟩, ⟨0, 0⟩⟩
      ⟨⟨0, 1⟩, [⟨3, 4⟩, ⟨0, 0⟩], [-1, 0]⟩).m_manifold.pointCount ≤ 2 ∧
    (∃ m : JSIBox2dWorldManifold,
      JSIBox2dContact.GetWorldManifold
          ⟨true, ⟨1, ⟨0, 1⟩, ⟨0, 0⟩⟩, ⟨⟨0, 1⟩, [⟨3, 4⟩, ⟨0, 0⟩], [-1, 0]⟩⟩ []
        = .ok (.hostObject (.worldManifold m)) ∧
      m.manifold = ⟨⟨0, 1⟩, [⟨3, 4⟩, ⟨0, 0⟩], [-1, 0]⟩ ∧
      m.pointCount = 1) ∧
    JSIBox2dWorldManifold.get_points ⟨⟨⟨0, 1⟩, [⟨3, 4⟩, ⟨0, 0⟩], [-1, 0]⟩, 1⟩ []
      = .ok (.array [.object [("x", .number (toDouble 3)), ("y", .number (toDouble 4))]]) ∧
    JSIBox2dWorldManifold.get_separations ⟨⟨⟨0, 1⟩, [⟨3, 4⟩, ⟨0, 0⟩], [-1, 0]⟩, 1⟩ []
      = .ok (.array [.number (toDouble (-1))]) ∧
    JSIBox2dWorldManifold.get_points ⟨⟨⟨0, 1⟩, [⟨3, 4⟩, ⟨0, 0⟩], [-1, 0]⟩, 3⟩ []
      = .error (.outOfRange 2) :=
  ⟨rfl, rfl, by decide,
    (GetWorldManifold_snapshot
        ⟨true, ⟨1, ⟨0, 1⟩, ⟨0, 0⟩⟩, ⟨⟨0, 1⟩, [⟨3, 4⟩, ⟨0, 0⟩], [-1, 0]⟩⟩ [] rfl rfl
        (by decide)).elim fun m h => ⟨m, h.1, h.2.1, h.2.2.1⟩,
    rfl, rfl, rfl⟩

namespace JSIBox2dMouseJoint

/-- C19, as stated, fails: the export table of the MouseJoint wrapper lists neither
`GetType` nor `IsEnabled` nor any motor operation, all of which the base Joint wrapper
exposes. -/
theorem MouseJoint_not_all_Joint_operations :
    exposes JSIBox2dJoint.exportedFunctions "GetType" = true ∧
    exposes exportedFunctions "GetType" = false ∧
    exposes JSIBox2dJoint.exportedFunctions "IsEnabled" = true ∧
    exposes exportedFunctions "IsEnabled" = false ∧
    exposes JSIBox2dJoint.exportedFunctions "SetMotorSpeed" = true ∧
    exposes exportedFunctions "SetMotorSpeed" = false ∧
    exposes JSIBox2dJoint.exportedFunctions "GetMotorSpeed" = true ∧
    exposes exportedFunctions "GetMotorSpeed" = false ∧
    exposes JSIBox2dJoint.exportedFunctions "EnableMotor" = true ∧
    exposes exportedFunctions "EnableMotor" = false ∧
    exposes JSIBox2dJoint.exportedFunctions "SetMaxMotorTorque" = true ∧
    exposes exportedFunctions "SetMaxMotorTorque" = false := by
  decide

/-- C19, amended: the MouseJoint wrapper exposes exactly `GetBodyA` and `GetBodyB`, which
are functions of the base Joint wrapper, and `SetTarget` and `GetTarget`; it exposes
none of the motor operations.  `SetTarget` with a vector makes the one engine call
`SetTarget` on the underlying mouse joint and returns undefined, and `GetTarget` returns
the target of that same joint: after `SetTarget`, the vector just set. -/
theorem MouseJoint_operations (self : b2MouseJoint) (v : Value) (target : b2Vec2)
    (rest arguments : List Value) (h : JSIBox2dVec2.fromValue v = .ok target) :
    (∀ name, exposes exportedFunctions name = true ↔
      name = "GetBodyA" ∨ name = "GetBodyB" ∨ name = "SetTarget" ∨ name = "GetTarget") ∧
    exposes JSIBox2dJoint.exportedFunctions "GetBodyA" = true ∧
    exposes JSIBox2dJoint.exportedFunctions "GetBodyB" = true ∧
    exposes exportedFunctions "SetMotorSpeed" = false ∧
    exposes exportedFunctions "GetMotorSpeed" = false ∧
    exposes exportedFunctions "EnableMotor" = false ∧
    exposes exportedFunctions "SetMaxMotorTorque" = false ∧
    SetTarget self (v :: rest) = (.ok .undefined, self.SetTarget target) ∧
    GetTarget self arguments = .ok (JSIBox2dVec2.toValue self.GetTarget) ∧
    GetTarget (SetTarget self (v :: rest)).2 arguments
      = .ok (JSIBox2dVec2.toValue target) := by
  have hs : SetTarget self (v :: rest) = (.ok .undefined, self.SetTarget target) := by
    simp [SetTarget, arg, bind, Except.bind, h]
  refine ⟨?_, by decide, by decide, by decide, by decide, by decide, by decide, hs, rfl, ?_⟩
  · intro name
    simp only [exposes, exportedFunctions, List.any_cons, List.any_nil, Bool.or_false,
      Bool.or_eq_true, beq_iff_eq]
    constructor <;> rintro (rfl | rfl | rfl | rfl) <;> simp
  · rw [hs]
    rfl

/-- Witness for C19 amended: the target `(2, 3)` set on a mouse joint and read back. -/
theorem MouseJoint_operations_witness :
    JSIBox2dVec2.fromValue (.hostObject (.vec2 ⟨2, 3⟩)) = .ok ⟨2, 3⟩ ∧
    SetTarget ⟨⟨0, 0⟩⟩ [.hostObject (.vec2 ⟨2, 3⟩)] = (.ok .undefined, ⟨⟨2, 3⟩⟩) ∧
    GetTarget (SetTarget ⟨⟨0, 0⟩⟩ [.hostObject (.vec2 ⟨2, 3⟩)]).2 []
      = .ok (.object [("x", .number (toDouble 2)), ("y", .number (toDouble 3))]) :=
  ⟨rfl,
    (MouseJoint_operations ⟨⟨0, 0⟩⟩ (.hostObject (.vec2 ⟨2, 3⟩)) ⟨2, 3⟩ [] [] rfl).2.2.2.2.2.2.2.1,
    (MouseJoint_operations ⟨⟨0, 0⟩⟩ (.hostObject (.vec2 ⟨2, 3⟩)) ⟨2, 3⟩ [] []
      rfl).2.2.2.2.2.2.2.2.2⟩

end JSIBox2dMouseJoint

namespace JSIBox2dMouseJointDef

/-- C20: assigning a Body host object to the `bodyA` or `bodyB` property of a
MouseJointDef stores exactly the raw engine handle of that body in that field of the
definition struct and leaves every other field (the other body, target, maxForce,
stiffness, damping) as it was. -/
theorem set_body (self : b2MouseJointDef) (body : BodyHandle) :
    set_bodyA self (.hostObject (.body body))
      = (.ok (), ⟨some body, self.bodyB, self.target, self.maxForce, self.stiffness,
          self.damping⟩) ∧
    set_bodyB self (.hostObject (.body body))
      = (.ok (), ⟨self.bodyA, some body, self.target, self.maxForce, self.stiffness,
          self.damping⟩) :=
  ⟨rfl, rfl⟩

end JSIBox2dMouseJointDef

/-- C21: the property setters of the joint definitions are idempotent.  For every setter
of DistanceJointDef (length, minLength, maxLength, stiffness, damping), of
RevoluteJointDef (enableLimit, enableMotor, lowerAngle, upperAngle, motorSpeed,
maxMotorTorque) and of MouseJointDef (target, maxForce, stiffness, damping), every
definition struct and every value, applying the setter with the value twice gives the
same outcome and the same struct as applying it once; and applying it with the current
value of its field (a number widened from the field, the boolean of the field, a vector
holding the target) succeeds and leaves the struct unchanged. -/
theorem definition_setters_idempotent (runtime : Runtime) :
    (IdempotentSetter JSIBox2dDistanceJointDef.set_length ∧
      IdempotentSetter JSIBox2dDistanceJointDef.set_minLength ∧
      IdempotentSetter JSIBox2dDistanceJointDef.set_maxLength ∧
      IdempotentSetter JSIBox2dDistanceJointDef.set_stiffness ∧
      IdempotentSetter JSIBox2dDistanceJointDef.set_damping) ∧
    (IdempotentSetter (JSIBox2dRevoluteJointDef.set_enableLimit runtime) ∧
      IdempotentSetter (JSIBox2dRevoluteJointDef.set_enableMotor runtime) ∧
      IdempotentSetter JSIBox2dRevoluteJointDef.set_lowerAngle ∧
      IdempotentSetter JSIBox2dRevoluteJointDef.set_upperAngle ∧
      IdempotentSetter JSIBox2dRevoluteJointDef.set_motorSpeed ∧
      IdempotentSetter JSIBox2dRevoluteJointDef.set_maxMotorTorque) ∧
    (IdempotentSetter JSIBox2dMouseJointDef.set_target ∧
      IdempotentSetter JSIBox2dMouseJointDef.set_maxForce ∧
      IdempotentSetter JSIBox2dMouseJointDef.set_stiffness ∧
      IdempotentSetter JSIBox2dMouseJointDef.set_damping) ∧
    (NoOpOnCurrent JSIBox2dDistanceJointDef.set_length
        (fun d => .number (toDouble d.length)) ∧
      NoOpOnCurrent JSIBox2dDistanceJointDef.set_minLength
        (fun d => .number (toDouble d.minLength)) ∧
      NoOpOnCurrent JSIBox2dDistanceJointDef.set_maxLength
        (fun d => .number (toDouble d.maxLength)) ∧
      NoOpOnCurrent JSIBox2dDistanceJointDef.set_stiffness
        (fun d => .number (toDouble d.stiffness)) ∧
      NoOpOnCurrent JSIBox2dDistanceJointDef.set_damping
        (fun d => .number (toDouble d.damping))) ∧
    (NoOpOnCurrent (JSIBox2dRevoluteJointDef.set_enableLimit runtime)
        (fun d => .bool d.enableLimit) ∧
      NoOpOnCurrent (JSIBox2dRevoluteJointDef.set_enableMotor runtime)
        (fun d => .bool d.enableMotor) ∧
      NoOpOnCurrent JSIBox2dRevoluteJointDef.set_lowerAngle
        (fun d => .number (toDouble d.lowerAngle)) ∧
      NoOpOnCurrent JSIBox2dRevoluteJointDef.set_upperAngle
        (fun d => .number (toDouble d.upperAngle)) ∧
      NoOpOnCurrent JSIBox2dRevoluteJointDef.set_motorSpeed
        (fun d => .number (toDouble d.motorSpeed)) ∧
      NoOpOnCurrent JSIBox2dRevoluteJointDef.set_maxMotorTorque
        (fun d => .number (toDouble d.maxMotorTorque))) ∧
    (NoOpOnCurrent JSIBox2dMouseJointDef.set_target (fun d => .hostObject (.vec2 d.target)) ∧
      NoOpOnCurrent JSIBox2dMouseJointDef.set_target
        (fun d => JSIBox2dVec2.toValue d.target) ∧
      NoOpOnCurrent JSIBox2dMouseJointDef.set_maxForce
        (fun d => .number (toDouble d.maxForce)) ∧
      NoOpOnCurrent JSIBox2dMouseJointDef.set_stiffness
        (fun d => .number (toDouble d.stiffness)) ∧
      NoOpOnCurrent JSIBox2dMouseJointDef.set_damping
        (fun d => .number (toDouble d.damping))) := by
  refine ⟨⟨?_, ?_, ?_, ?_, ?_⟩, ⟨?_, ?_, ?_, ?_, ?_, ?_⟩, ⟨?_, ?_, ?_, ?_⟩,
    ⟨?_, ?_, ?_, ?_, ?_⟩, ⟨?_, ?_, ?_, ?_, ?_, ?_⟩, ⟨?_, ?_, ?_, ?_, ?_⟩⟩
  case refine_6 | refine_7 =>
    intro d v
    cases ha : runtime.assertions <;> cases v <;>
      simp [JSIBox2dRevoluteJointDef.set_enableLimit,
        JSIBox2dRevoluteJointDef.set_enableMotor, getBool, ha]
  case refine_12 =>
    intro d v
    rcases JSIBox2dWorld.fromValue_ok_or_jsError v with ⟨p, hp⟩ | hp <;>
      simp [JSIBox2dMouseJointDef.set_target, hp]
  case refine_1 | refine_2 | refine_3 | refine_4 | refine_5 | refine_8 | refine_9 |
      refine_10 | refine_11 | refine_13 | refine_14 | refine_15 =>
    intro d v
    cases v <;> rfl
  all_goals
    intro d
    cases d
    rfl

/-- The conversion of a body either succeeds, on a Body host object, or fails with a
script-visible error. -/
theorem JSIBox2dBody.fromValue_cases (v : Value) :
    (∃ h, v = .hostObject (.body h) ∧ JSIBox2dBody.fromValue v = .ok h) ∨
    ((∀ h, v ≠ .hostObject (.body h)) ∧
      ∃ message, JSIBox2dBody.fromValue v = .error (.jsError message)) := by
  cases v with
  | hostObject o =>
    cases o <;> simp [JSIBox2dBody.fromValue, asObject, Value.isObject]
  | _ => simp [JSIBox2dBody.fromValue, asObject, Value.isObject]

/-- The conversion of a number either succeeds, on a number, or fails with a
script-visible error. -/
theorem asNumber_cases (v : Value) :
    (∃ n, v = .number n ∧ asNumber v = .ok n) ∨
    ((∀ n, v ≠ .number n) ∧ asNumber v = .error (.jsError "Value is not a number")) := by
  cases v <;> simp [asNumber]

/-- A property of a plain object is absent, a number, or a value whose conversion to a
number fails with a script-visible error. -/
theorem lookup_cases (props : List (String × Value)) (name : String) :
    props.lookup name = none ∨
    (∃ n, props.lookup name = some (.number n)) ∨
    (∃ w, props.lookup name = some w ∧ w.isNumber = false ∧
      asNumber w = .error (.jsError "Value is not a number")) := by
  cases h : props.lookup name with
  | none => exact Or.inl rfl
  | some w =>
    cases w <;> simp [Value.isNumber, asNumber]

/-- With a wrong first, second or third argument, the argument conversion of
`RevoluteJointDef.Initialize` fails with a script-visible error. -/
theorem JSIBox2dRevoluteJointDef.revoluteArguments_wrong (a b c : Value)
    (rest : List Value)
    (h : (∀ h, a ≠ .hostObject (.body h)) ∨ (∀ h, b ≠ .hostObject (.body h)) ∨
      (∀ p, JSIBox2dVec2.fromValue c ≠ .ok p)) :
    ∃ message, initializeArguments (a :: b :: c :: rest) = .error (.jsError message) := by
  rcases JSIBox2dBody.fromValue_cases a with ⟨ha, rfl, ea⟩ | ⟨na, ma, ea⟩
  · rcases JSIBox2dBody.fromValue_cases b with ⟨hb, rfl, eb⟩ | ⟨nb, mb, eb⟩
    · rcases JSIBox2dWorld.fromValue_ok_or_jsError c with ⟨p, ec⟩ | ec
      · rcases h with h | h | h
        · exact absurd rfl (h ha)
        · exact absurd rfl (h hb)
        · exact absurd ec (h p)
      · exact ⟨"Value is not a Vec2", by
          simp [initializeArguments, arg, bind, Except.bind, ea, eb, ec]⟩
    · exact ⟨mb, by simp [initializeArguments, arg, bind, Except.bind, ea, eb]⟩
  · exact ⟨ma, by simp [initializeArguments, arg, bind, Except.bind, ea]⟩

/-- With a wrong argument among the first four, the argument conversion of
`DistanceJointDef.Initialize` fails with a script-visible error. -/
theorem JSIBox2dDistanceJointDef.distanceArguments_wrong (a b c d : Value)
    (rest : List Value)
    (h : (∀ h, a ≠ .hostObject (.body h)) ∨ (∀ h, b ≠ .hostObject (.body h)) ∨
      (∀ p, JSIBox2dVec2.fromValue c ≠ .ok p) ∨ (∀ p, JSIBox2dVec2.fromValue d ≠ .ok p)) :
    ∃ message, initializeArguments (a :: b :: c :: d :: rest)
      = .error (.jsError message) := by
  rcases JSIBox2dBody.fromValue_cases a with ⟨ha, rfl, ea⟩ | ⟨na, ma, ea⟩
  · rcases JSIBox2dBody.fromValue_cases b with ⟨hb, rfl, eb⟩ | ⟨nb, mb, eb⟩
    · rcases JSIBox2dWorld.fromValue_ok_or_jsError c with ⟨p, ec⟩ | ec
      · rcases JSIBox2dWorld.fromValue_ok_or_jsError d with ⟨q, ed⟩ | ed
        · rcases h with h | h | h | h
          · exact absurd rfl (h ha)
          · exact absurd rfl (h hb)
          · exact absurd ec (h p)
          · exact absurd ed (h q)
        · exact ⟨"Value is not a Vec2", by
            simp [initializeArguments, arg, bind, Except.bind, ea, eb, ec, ed]⟩
      · exact ⟨"Value is not a Vec2", by
          simp [initializeArguments, arg, bind, Except.bind, ea, eb, ec]⟩
    · exact ⟨mb, by simp [initializeArguments, arg, bind, Except.bind, ea, eb]⟩
  · exact ⟨ma, by simp [initializeArguments, arg, bind, Except.bind, ea]⟩

/-- Taking the raw pointer of a converted vector succeeds when the conversion does, with
the converted vector as pointee, and fails with the error of the conversion otherwise. -/
theorem JSIBox2dVec2.fromValueGet_cases (v : Value) :
    (∃ q alive, JSIBox2dVec2.fromValue v = .ok q ∧
      JSIBox2dVec2.fromValueGet v = .ok ⟨q, alive⟩) ∨
    (JSIBox2dVec2.fromValue v = .error (.jsError "Value is not a Vec2") ∧
      JSIBox2dVec2.fromValueGet v = .error (.jsError "Value is not a Vec2")) := by
  rcases JSIBox2dWorld.fromValue_ok_or_jsError v with ⟨q, e⟩ | e
  · refine Or.inl ⟨q, ?_⟩
    by_cases hv : ∃ w, v = .hostObject (.vec2 w)
    · obtain ⟨w, rfl⟩ := hv
      exact ⟨true, e, by simp [JSIBox2dVec2.fromValueGet, e]⟩
    · refine ⟨false, e, ?_⟩
      simp only [JSIBox2dVec2.fromValueGet, e]
      split
      · exact absurd ⟨_, rfl⟩ hv
      · rfl
  · exact Or.inr ⟨e, by simp [JSIBox2dVec2.fromValueGet, e]⟩

/-- With a wrong position or angle, the argument conversion of `SetTransform` fails with
a script-visible error. -/
theorem JSIBox2dBody.setTransformArguments_wrong (runtime : Runtime) (p n : Value)
    (rest : List Value)
    (h : (∀ q, JSIBox2dVec2.fromValue p ≠ .ok q) ∨ (∀ x, n ≠ .number x)) :
    ∃ message, setTransformArguments runtime (p :: n :: rest)
      = .error (.jsError message) := by
  rcases JSIBox2dVec2.fromValueGet_cases p with ⟨q, alive, ep, gp⟩ | ⟨ep, gp⟩
  · rcases asNumber_cases n with ⟨x, rfl, en⟩ | ⟨nn, en⟩
    · rcases h with h | h
      · exact absurd ep (h q)
      · exact absurd rfl (h x)
    · exact ⟨"Value is not a number", by
        simp [setTransformArguments, arg, bind, Except.bind, gp, en]⟩
  · exact ⟨"Value is not a Vec2", by
      simp [setTransformArguments, arg, bind, Except.bind, gp]⟩

/-- With a wrong force or point, the argument conversion of `ApplyForce` fails with a
script-visible error, whatever follows. -/
theorem JSIBox2dBody.atPointArguments_wrong (runtime : Runtime) (f p : Value)
    (rest : List Value)
    (h : (∀ q, JSIBox2dVec2.fromValue f ≠ .ok q) ∨ (∀ q, JSIBox2dVec2.fromValue p ≠ .ok q)) :
    ∃ message, atPointArguments runtime (f :: p :: rest) = .error (.jsError message) := by
  rcases JSIBox2dVec2.fromValueGet_cases f with ⟨q, aq, ef, gf⟩ | ⟨ef, gf⟩
  · rcases JSIBox2dVec2.fromValueGet_cases p with ⟨r, ar, ep, gp⟩ | ⟨ep, gp⟩
    · rcases h with h | h
      · exact absurd ef (h q)
      · exact absurd ep (h r)
    · exact ⟨"Value is not a Vec2", by
        simp [atPointArguments, arg, bind, Except.bind, gf, gp]⟩
  · exact ⟨"Value is not a Vec2", by simp [atPointArguments, arg, bind, Except.bind, gf]⟩

/-- With an argument that is not an object, or a plain object in which one of the three
fields is present and not a number, the filter of `SetFilterData` is not built: the
conversion fails with a script-visible error. -/
theorem JSIBox2dFixture.filterOfArguments_wrong (v : Value) (rest : List Value)
    (h : v.isObject = false ∨
      ∃ props name w, v = .object props ∧ name ∈ ["categoryBits", "maskBits", "groupIndex"] ∧
        props.lookup name = some w ∧ w.isNumber = false) :
    ∃ message, filterOfArguments (v :: rest) = .error (.jsError message) := by
  rcases h with h | ⟨props, name, w, rfl, hmem, hl, hw⟩
  · exact ⟨"Value is not an Object", by
      simp [filterOfArguments, arg, asObject, h, bind, Except.bind]⟩
  · have hn : ∀ n, asNumber (.number n) = .ok n := fun _ => rfl
    simp only [List.mem_cons, List.mem_singleton, List.not_mem_nil, or_false] at hmem
    rcases lookup_cases props "categoryBits" with c1 | ⟨n1, c1⟩ | ⟨w1, c1, -, b1⟩ <;>
    rcases lookup_cases props "maskBits" with c2 | ⟨n2, c2⟩ | ⟨w2, c2, -, b2⟩ <;>
    rcases lookup_cases props "groupIndex" with c3 | ⟨n3, c3⟩ | ⟨w3, c3, -, b3⟩ <;>
    first
      | (rcases hmem with rfl | rfl | rfl <;> simp_all [Value.isNumber] <;> done)
      | exact ⟨"Value is not a number", by
          simp [filterOfArguments, arg, asObject, Value.isObject, Value.hasProperty,
            Value.getProperty, bind, Except.bind, pure, Except.pure, hn, *]⟩

/-- C22: shape errors are atomic.  For `RevoluteJointDef.Initialize`,
`DistanceJointDef.Initialize`, `Body.SetTransform`, `Body.ApplyForce` and
`Fixture.SetFilterData`: when an argument has the wrong shape (a value that is not a
Body host object where a body is required, a value that does not convert to a vector
where a Vec2 is required, a value that is not a number where a number is required, an
argument that is not an object or a field of the filter object that is present and not
a number), the call fails with a script-visible error and the definition struct or
engine entity is exactly as it was; and whatever the arguments, a call that fails leaves
it exactly as it was, since every argument is converted before the one write. -/
theorem shape_errors_atomic (runtime : Runtime) (engine : b2Engine)
    (revoluteDef : b2RevoluteJointDef)
    (distanceDef : b2DistanceJointDef) (body : b2Body) (fixture : b2Fixture)
    (a b c d : Value) (rest : List Value) :
    (((∀ h, a ≠ .hostObject (.body h)) ∨ (∀ h, b ≠ .hostObject (.body h)) ∨
        (∀ p, JSIBox2dVec2.fromValue c ≠ .ok p)) →
      ∃ message, JSIBox2dRevoluteJointDef.Initialize engine revoluteDef (a :: b :: c :: rest)
        = (.error (.jsError message), revoluteDef)) ∧
    (((∀ h, a ≠ .hostObject (.body h)) ∨ (∀ h, b ≠ .hostObject (.body h)) ∨
        (∀ p, JSIBox2dVec2.fromValue c ≠ .ok p) ∨ (∀ p, JSIBox2dVec2.fromValue d ≠ .ok p)) →
      ∃ message,
        JSIBox2dDistanceJointDef.Initialize engine distanceDef (a :: b :: c :: d :: rest)
          = (.error (.jsError message), distanceDef)) ∧
    (((∀ p, JSIBox2dVec2.fromValue a ≠ .ok p) ∨ (∀ x, b ≠ .number x)) →
      ∃ message, JSIBox2dBody.SetTransform runtime body (a :: b :: rest)
        = (.error (.jsError message), body)) ∧
    (((∀ p, JSIBox2dVec2.fromValue a ≠ .ok p) ∨ (∀ p, JSIBox2dVec2.fromValue b ≠ .ok p)) →
      ∃ message, JSIBox2dBody.ApplyForce runtime body (a :: b :: rest)
        = (.error (.jsError message), body)) ∧
    ((a.isObject = false ∨
        ∃ props name w, a = .object props ∧
          name ∈ ["categoryBits", "maskBits", "groupIndex"] ∧
          props.lookup name = some w ∧ w.isNumber = false) →
      ∃ message, JSIBox2dFixture.SetFilterData fixture (a :: rest)
        = (.error (.jsError message), fixture)) ∧
    (∀ (arguments : List Value) (e : Fault),
      ((JSIBox2dRevoluteJointDef.Initialize engine revoluteDef arguments).1 = .error e →
        (JSIBox2dRevoluteJointDef.Initialize engine revoluteDef arguments).2 = revoluteDef) ∧
      ((JSIBox2dDistanceJointDef.Initialize engine distanceDef arguments).1 = .error e →
        (JSIBox2dDistanceJointDef.Initialize engine distanceDef arguments).2 = distanceDef) ∧
      ((JSIBox2dBody.SetTransform runtime body arguments).1 = .error e →
        (JSIBox2dBody.SetTransform runtime body arguments).2 = body) ∧
      ((JSIBox2dBody.ApplyForce runtime body arguments).1 = .error e →
        (JSIBox2dBody.ApplyForce runtime body arguments).2 = body) ∧
      ((JSIBox2dFixture.SetFilterData fixture arguments).1 = .error e →
        (JSIBox2dFixture.SetFilterData fixture arguments).2 = fixture)) := by
  refine ⟨fun h => ?_, fun h => ?_, fun h => ?_, fun h => ?_, fun h => ?_,
    fun arguments e => ⟨?_, ?_, ?_, ?_, ?_⟩⟩
  · obtain ⟨m, hm⟩ := JSIBox2dRevoluteJointDef.revoluteArguments_wrong a b c rest h
    exact ⟨m, by simp only [JSIBox2dRevoluteJointDef.Initialize, hm]⟩
  · obtain ⟨m, hm⟩ := JSIBox2dDistanceJointDef.distanceArguments_wrong a b c d rest h
    exact ⟨m, by simp only [JSIBox2dDistanceJointDef.Initialize, hm]⟩
  · obtain ⟨m, hm⟩ := JSIBox2dBody.setTransformArguments_wrong runtime a b rest h
    exact ⟨m, by simp only [JSIBox2dBody.SetTransform, hm]⟩
  · obtain ⟨m, hm⟩ := JSIBox2dBody.atPointArguments_wrong runtime a b rest h
    exact ⟨m, by simp only [JSIBox2dBody.ApplyForce, hm]⟩
  · obtain ⟨m, hm⟩ := JSIBox2dFixture.filterOfArguments_wrong a rest h
    exact ⟨m, by simp only [JSIBox2dFixture.SetFilterData, hm]⟩
  · unfold JSIBox2dRevoluteJointDef.Initialize
    cases JSIBox2dRevoluteJointDef.initializeArguments arguments <;> simp
  · unfold JSIBox2dDistanceJointDef.Initialize
    cases JSIBox2dDistanceJointDef.initializeArguments arguments <;> simp
  · unfold JSIBox2dBody.SetTransform
    cases JSIBox2dBody.setTransformArguments runtime arguments <;> simp
  · unfold JSIBox2dBody.ApplyForce
    cases JSIBox2dBody.atPointArguments runtime arguments <;> simp
  · unfold JSIBox2dFixture.SetFilterData
    cases JSIBox2dFixture.filterOfArguments arguments <;> simp

/-- Witness for C22: a number where the first body is required, a string where the
second anchor, the angle, and a filter field are required, a number where the point is
required; and, against them, a well-shaped `Initialize` that does write. -/
theorem shape_errors_atomic_witness :
    (∀ h, Value.number 1 ≠ .hostObject (.body h)) ∧
    (∀ p, JSIBox2dVec2.fromValue (.string "x") ≠ .ok p) ∧
    (∀ x, Value.string "x" ≠ .number x) ∧
    (∀ p, JSIBox2dVec2.fromValue (.number 3) ≠ .ok p) ∧
    (∃ message,
      JSIBox2dRevoluteJointDef.Initialize ⟨fun _ p => p, fun _ => 0, fun _ => 1, 1 / 200⟩
          ⟨none, none, ⟨0, 0⟩, ⟨0, 0⟩, 0, false, 0, 0, false, 0, 0⟩
          [.number 1, .hostObject (.body 2), .hostObject (.vec2 ⟨1, 1⟩)]
        = (.error (.jsError message),
            ⟨none, none, ⟨0, 0⟩, ⟨0, 0⟩, 0, false, 0, 0, false, 0, 0⟩)) ∧
    (∃ message,
      JSIBox2dDistanceJointDef.Initialize ⟨fun _ p => p, fun _ => 0, fun _ => 1, 1 / 200⟩
          ⟨none, none, ⟨0, 0⟩, ⟨0, 0⟩, 1, 0, 2, 0, 0⟩
          [.hostObject (.body 1), .hostObject (.body 2), .hostObject (.vec2 ⟨1, 1⟩),
            .string "x"]
        = (.error (.jsError message), ⟨none, none, ⟨0, 0⟩, ⟨0, 0⟩, 1, 0, 2, 0, 0⟩)) ∧
    (∃ message,
      JSIBox2dBody.SetTransform Runtime.checked ⟨[]⟩ [.hostObject (.vec2 ⟨1, 1⟩), .string "x"]
        = (.error (.jsError message), ⟨[]⟩)) ∧
    (∃ message,
      JSIBox2dBody.ApplyForce Runtime.checked ⟨[]⟩ [.hostObject (.vec2 ⟨1, 1⟩), .number 3]
        = (.error (.jsError message), ⟨[]⟩)) ∧
    (∃ message,
      JSIBox2dFixture.SetFilterData ⟨⟨2, 4, 7⟩, false⟩
          [.object [("categoryBits", .number 8), ("maskBits", .string "x")]]
        = (.error (.jsError message), ⟨⟨2, 4, 7⟩, false⟩)) ∧
    JSIBox2dRevoluteJointDef.Initialize ⟨fun _ p => p, fun _ => 0, fun _ => 1, 1 / 200⟩
        ⟨none, none, ⟨0, 0⟩, ⟨0, 0⟩, 0, false, 0, 0, false, 0, 0⟩
        [.hostObject (.body 1), .hostObject (.body 2), .hostObject (.vec2 ⟨1, 1⟩)]
      = (.ok .undefined,
          ⟨some 1, some 2, ⟨1, 1⟩, ⟨1, 1⟩, 0 - 0, false, 0, 0, false, 0, 0⟩) ∧
    JSIBox2dBody.SetTransform Runtime.checked ⟨[]⟩ [.hostObject (.vec2 ⟨1, 1⟩), .number 2]
      = (.ok .undefined, ⟨[.SetTransform ⟨1, 1⟩ 2]⟩) :=
  have h1 : ∀ h, Value.number 1 ≠ .hostObject (.body h) := fun _ e => by cases e
  have h2 : ∀ p, JSIBox2dVec2.fromValue (.string "x") ≠ .ok p :=
    fun p e => by simp [JSIBox2dVec2.fromValue] at e
  have h3 : ∀ x, Value.string "x" ≠ .number x := fun _ e => by cases e
  have h4 : ∀ p, JSIBox2dVec2.fromValue (.number 3) ≠ .ok p :=
    fun p e => by simp [JSIBox2dVec2.fromValue] at e
  ⟨h1, h2, h3, h4,
    (shape_errors_atomic Runtime.checked ⟨fun _ p => p, fun _ => 0, fun _ => 1, 1 / 200⟩
      ⟨none, none, ⟨0, 0⟩, ⟨0, 0⟩, 0, false, 0, 0, false, 0, 0⟩
      ⟨none, none, ⟨0, 0⟩, ⟨0, 0⟩, 1, 0, 2, 0, 0⟩ ⟨[]⟩ ⟨⟨2, 4, 7⟩, false⟩
      (.number 1) (.hostObject (.body 2)) (.hostObject (.vec2 ⟨1, 1⟩)) .undefined []).1
      (Or.inl h1),
    (shape_errors_atomic Runtime.checked ⟨fun _ p => p, fun _ => 0, fun _ => 1, 1 / 200⟩
      ⟨none, none, ⟨0, 0⟩, ⟨0, 0⟩, 0, false, 0, 0, false, 0, 0⟩
      ⟨none, none, ⟨0, 0⟩, ⟨0, 0⟩, 1, 0, 2, 0, 0⟩ ⟨[]⟩ ⟨⟨2, 4, 7⟩, false⟩
      (.hostObject (.body 1)) (.hostObject (.body 2)) (.hostObject (.vec2 ⟨1, 1⟩))
      (.string "x") []).2.1 (Or.inr (Or.inr (Or.inr h2))),
    (shape_errors_atomic Runtime.checked ⟨fun _ p => p, fun _ => 0, fun _ => 1, 1 / 200⟩
      ⟨none, none, ⟨0, 0⟩, ⟨0, 0⟩, 0, false, 0, 0, false, 0, 0⟩
      ⟨none, none, ⟨0, 0⟩, ⟨0, 0⟩, 1, 0, 2, 0, 0⟩ ⟨[]⟩ ⟨⟨2, 4, 7⟩, false⟩
      (.hostObject (.vec2 ⟨1, 1⟩)) (.string "x") .undefined .undefined []).2.2.1
      (Or.inr h3),
    (shape_errors_atomic Runtime.checked ⟨fun _ p => p, fun _ => 0, fun _ => 1, 1 / 200⟩
      ⟨none, none, ⟨0, 0⟩, ⟨0, 0⟩, 0, false, 0, 0, false, 0, 0⟩
      ⟨none, none, ⟨0, 0⟩, ⟨0, 0⟩, 1, 0, 2, 0, 0⟩ ⟨[]⟩ ⟨⟨2, 4, 7⟩, false⟩
      (.hostObject (.vec2 ⟨1, 1⟩)) (.number 3) .undefined .undefined []).2.2.2.1
      (Or.inr h4),
    (shape_errors_atomic Runtime.checked ⟨fun _ p => p, fun _ => 0, fun _ => 1, 1 / 200⟩
      ⟨none, none, ⟨0, 0⟩, ⟨0, 0⟩, 0, false, 0, 0, false, 0, 0⟩
      ⟨none, none, ⟨0, 0⟩, ⟨0, 0⟩, 1, 0, 2, 0, 0⟩ ⟨[]⟩ ⟨⟨2, 4, 7⟩, false⟩
      (.object [("categoryBits", .number 8), ("maskBits", .string "x")])
      .undefined .undefined .undefined []).2.2.2.2.1
      (Or.inr ⟨_, "maskBits", .string "x", rfl, by simp, rfl, rfl⟩),
    rfl, rfl⟩

namespace JSIBox2dFixture

/-- C23: filter round trip.  For every fixture, `GetFilterData` returns the plain object
holding the three fields of the engine filter, read at their machine types, as numbers:
`categoryBits` and `maskBits` lie in 0..65535 and `groupIndex` in -32768..32767.  When
the fields of the fixture's filter are values of their machine types, that object holds
them as they are, and passing it straight back to `SetFilterData`, of the same fixture
or of any other, builds a filter equal to the filter it was read from in all three
fields and hands it to the engine: the receiving fixture afterwards is the fixture
after the engine's `SetFilterData` with that filter, so another fixture takes over the
filter and the same fixture is as it was. -/
theorem filter_round_trip (self : b2Fixture) (arguments : List Value) :
    GetFilterData self arguments
      = .ok (.object
          [("categoryBits", .number ((readUint16 self.m_filter.categoryBits : Nat) : Number)),
            ("maskBits", .number ((readUint16 self.m_filter.maskBits : Nat) : Number)),
            ("groupIndex", .number ((readInt16 self.m_filter.groupIndex : Int) : Number))]) ∧
    ((0 : Number) ≤ (readUint16 self.m_filter.categoryBits : Nat) ∧
      ((readUint16 self.m_filter.categoryBits : Nat) : Number) ≤ 65535) ∧
    ((0 : Number) ≤ (readUint16 self.m_filter.maskBits : Nat) ∧
      ((readUint16 self.m_filter.maskBits : Nat) : Number) ≤ 65535) ∧
    ((-32768 : Number) ≤ (readInt16 self.m_filter.groupIndex : Int) ∧
      ((readInt16 self.m_filter.groupIndex : Int) : Number) ≤ 32767) ∧
    (self.m_filter.categoryBits < 65536 → self.m_filter.maskBits < 65536 →
      -32768 ≤ self.m_filter.groupIndex → self.m_filter.groupIndex ≤ 32767 →
      GetFilterData self arguments
        = .ok (.object [("categoryBits", .number (self.m_filter.categoryBits : Number)),
                        ("maskBits", .number (self.m_filter.maskBits : Number)),
                        ("groupIndex", .number (self.m_filter.groupIndex : Number))]) ∧
      ∀ obj, GetFilterData self arguments = .ok obj →
        ∀ (other : b2Fixture) (rest : List Value),
          filterOfArguments (obj :: rest) = .ok self.m_filter ∧
          SetFilterData other (obj :: rest)
            = (.ok .undefined, other.SetFilterData self.m_filter) ∧
          (SetFilterData other (obj :: rest)).2.m_filter = self.m_filter ∧
          (SetFilterData other (obj :: rest)).2.m_isSensor = other.m_isSensor ∧
          SetFilterData self (obj :: rest) = (.ok .undefined, self)) := by
  have hget : GetFilterData self arguments
      = .ok (.object
          [("categoryBits", .number ((readUint16 self.m_filter.categoryBits : Nat) : Number)),
            ("maskBits", .number ((readUint16 self.m_filter.maskBits : Nat) : Number)),
            ("groupIndex", .number ((readInt16 self.m_filter.groupIndex : Int) : Number))]) := by
    simp [GetFilterData, b2Fixture.GetFilterData, intToNumber]
  have hu16 : ∀ n : Nat, readUint16 n ≤ 65535 := by
    intro n
    unfold readUint16
    omega
  have hi16 : ∀ i : Int, -32768 ≤ readInt16 i ∧ readInt16 i ≤ 32767 := by
    intro i
    unfold readInt16
    simp only
    split <;> omega
  refine ⟨hget, ⟨by positivity, by exact_mod_cast hu16 _⟩,
    ⟨by positivity, by exact_mod_cast hu16 _⟩,
    ⟨by exact_mod_cast (hi16 _).1, by exact_mod_cast (hi16 _).2⟩, ?_⟩
  intro hc hm hl hu
  have r1 : readUint16 self.m_filter.categoryBits = self.m_filter.categoryBits :=
    Nat.mod_eq_of_lt hc
  have r2 : readUint16 self.m_filter.maskBits = self.m_filter.maskBits :=
    Nat.mod_eq_of_lt hm
  have r3 : readInt16 self.m_filter.groupIndex = self.m_filter.groupIndex := by
    unfold readInt16
    simp only
    split <;> omega
  rw [r1, r2, r3] at hget
  refine ⟨hget, ?_⟩
  intro obj hobj other rest
  rw [hget] at hobj
  cases hobj
  have hfilter : filterOfArguments
      (.object [("categoryBits", .number (self.m_filter.categoryBits : Number)),
                ("maskBits", .number (self.m_filter.maskBits : Number)),
                ("groupIndex", .number (self.m_filter.groupIndex : Number))] :: rest)
      = .ok self.m_filter := by
    have h1 := toUint16_natCast _ hc
    have h2 := toUint16_natCast _ hm
    have h3 := toInt16_intCast _ hl hu
    obtain ⟨⟨cat, mask, group⟩, sensor⟩ := self
    simp only at h1 h2 h3
    simp [filterOfArguments, arg, asObject, Value.isObject, Value.hasProperty,
      Value.getProperty, List.lookup, asNumber, bind, Except.bind, pure, Except.pure,
      b2Filter.ctor, h1, h2, h3]
  refine ⟨hfilter, ?_, ?_, ?_, ?_⟩ <;>
    simp only [SetFilterData, hfilter, b2Fixture.SetFilterData]

/-- Witness for C23: the filter `(2, 65535, -3)` of a fixture, read and handed to a
sensor fixture whose filter is the default one, and to the fixture itself. -/
theorem filter_round_trip_witness :
    (b2Fixture.mk ⟨2, 65535, -3⟩ false).m_filter.categoryBits < 65536 ∧
    (b2Fixture.mk ⟨2, 65535, -3⟩ false).m_filter.maskBits < 65536 ∧
    -32768 ≤ (b2Fixture.mk ⟨2, 65535, -3⟩ false).m_filter.groupIndex ∧
    (b2Fixture.mk ⟨2, 65535, -3⟩ false).m_filter.groupIndex ≤ 32767 ∧
    GetFilterData ⟨⟨2, 65535, -3⟩, false⟩ []
      = .ok (.object [("categoryBits", .number ((2 : Nat) : Number)),
                      ("maskBits", .number ((65535 : Nat) : Number)),
                      ("groupIndex", .number ((-3 : Int) : Number))]) ∧
    SetFilterData ⟨⟨1, 65535, 0⟩, true⟩
        [.object [("categoryBits", .number ((2 : Nat) : Number)),
                  ("maskBits", .number ((65535 : Nat) : Number)),
                  ("groupIndex", .number ((-3 : Int) : Number))]]
      = (.ok .undefined, ⟨⟨2, 65535, -3⟩, true⟩) ∧
    SetFilterData ⟨⟨2, 65535, -3⟩, false⟩
        [.object [("categoryBits", .number ((2 : Nat) : Number)),
                  ("maskBits", .number ((65535 : Nat) : Number)),
                  ("groupIndex", .number ((-3 : Int) : Number))]]
      = (.ok .undefined, ⟨⟨2, 65535, -3⟩, false⟩) :=
  ⟨by decide, by decide, by decide, by decide,
    ((filter_round_trip ⟨⟨2, 65535, -3⟩, false⟩ []).2.2.2.2
      (by decide) (by decide) (by decide) (by decide)).1,
    (((filter_round_trip ⟨⟨2, 65535, -3⟩, false⟩ []).2.2.2.2
      (by decide) (by decide) (by decide) (by decide)).2 _
      ((filter_round_trip ⟨⟨2, 65535, -3⟩, false⟩ []).2.2.2.2
        (by decide) (by decide) (by decide) (by decide)).1 ⟨⟨1, 65535, 0⟩, true⟩ []).2.1,
    (((filter_round_trip ⟨⟨2, 65535, -3⟩, false⟩ []).2.2.2.2
      (by decide) (by decide) (by decide) (by decide)).2 _
      ((filter_round_trip ⟨⟨2, 65535, -3⟩, false⟩ []).2.2.2.2
        (by decide) (by decide) (by decide) (by decide)).1 ⟨⟨2, 65535, -3⟩, false⟩
      []).2.2.2.2⟩

end JSIBox2dFixture

/-- An engine call logged on a joint changes the joint: the log grows. -/
theorem b2Joint.logged_call_changes (j : b2Joint) (speed : Number) (flag : Bool) :
    j.SetMotorSpeed speed ≠ j ∧ j.EnableMotor flag ≠ j ∧ j.SetMaxMotorTorque speed ≠ j := by
  refine ⟨fun h => ?_, fun h => ?_, fun h => ?_⟩ <;>
    (have hl := congrArg (fun x : b2Joint => x.calls.length) h
     simp [b2Joint.SetMotorSpeed, b2Joint.EnableMotor, b2Joint.SetMaxMotorTorque] at hl)

namespace JSIBox2dJoint

/-- C24: the joint types on which each motor operation takes effect are fixed by the
dispatch.  `SetMotorSpeed` (with a number), `EnableMotor` (with a boolean) and
`GetMotorSpeed` forward to the engine joint exactly when the type tag is revolute,
prismatic or wheel; `SetMaxMotorTorque` (with a number) forwards exactly when the tag
is revolute or wheel.  A setter that forwards makes the one engine call, which the log
of the joint records, and one that does not leaves the joint as it was; the getter
returns the engine value when it forwards and 0 when it does not.  So on a prismatic
joint `SetMaxMotorTorque` is a silent no-op while the other three operations act. -/
theorem motor_dispatch (runtime : Runtime) (self : b2Joint) (n : Number) (flag : Bool)
    (rest arguments : List Value) :
    SetMotorSpeed self (.number n :: rest)
      = (.ok .undefined,
          if self.m_type = .e_revoluteJoint ∨ self.m_type = .e_prismaticJoint ∨
              self.m_type = .e_wheelJoint
          then self.SetMotorSpeed (toFloat n) else self) ∧
    EnableMotor runtime self (.bool flag :: rest)
      = (.ok .undefined,
          if self.m_type = .e_revoluteJoint ∨ self.m_type = .e_prismaticJoint ∨
              self.m_type = .e_wheelJoint
          then self.EnableMotor flag else self) ∧
    GetMotorSpeed self arguments
      = .ok (.number
          (if self.m_type = .e_revoluteJoint ∨ self.m_type = .e_prismaticJoint ∨
              self.m_type = .e_wheelJoint
           then toDouble self.GetMotorSpeed else 0)) ∧
    SetMaxMotorTorque self (.number n :: rest)
      = (.ok .undefined,
          if self.m_type = .e_revoluteJoint ∨ self.m_type = .e_wheelJoint
          then self.SetMaxMotorTorque (toFloat n) else self) ∧
    (self.SetMotorSpeed (toFloat n) ≠ self ∧ self.EnableMotor flag ≠ self ∧
      self.SetMaxMotorTorque (toFloat n) ≠ self) ∧
    (∀ (enabled : Bool) (speed torque : Number) (calls : List JointCall),
      SetMaxMotorTorque ⟨.e_prismaticJoint, enabled, speed, torque, calls⟩ (.number n :: rest)
        = (.ok .undefined, ⟨.e_prismaticJoint, enabled, speed, torque, calls⟩) ∧
      SetMotorSpeed ⟨.e_prismaticJoint, enabled, speed, torque, calls⟩ (.number n :: rest)
        = (.ok .undefined,
            ⟨.e_prismaticJoint, enabled, toFloat n, torque,
              calls ++ [.SetMotorSpeed (toFloat n)]⟩) ∧
      EnableMotor runtime ⟨.e_prismaticJoint, enabled, speed, torque, calls⟩
          (.bool flag :: rest)
        = (.ok .undefined,
            ⟨.e_prismaticJoint, flag, speed, torque, calls ++ [.EnableMotor flag]⟩) ∧
      GetMotorSpeed ⟨.e_prismaticJoint, enabled, speed, torque, calls⟩ arguments
        = .ok (.number (toDouble speed))) := by
  obtain ⟨t, em, ms, mt, calls⟩ := self
  refine ⟨?_, ?_, ?_, ?_, b2Joint.logged_call_changes _ _ _,
    fun _ _ _ _ => ⟨rfl, rfl, rfl, rfl⟩⟩ <;>
  cases t <;>
  simp [SetMotorSpeed, EnableMotor, GetMotorSpeed, SetMaxMotorTorque, arg, asNumber, getBool,
    bind, Except.bind, b2Joint.GetType]

end JSIBox2dJoint

end Box2d
